import Mathlib

/-!
# The HotFix bridge of the LLVM interpreter

A shallow embedding of `src/src/LLVMInterpreter/HotFix.cpp` (declared in
`src/include/LLVMInterpreter/HotFix.h`): the conversions between host values and
Dynamic Values, the three load operations, `executeFunction`, the function
queries and the registration of external functions; and of the command-line
driver `src/src/LLVMInterpreter/main.cpp`, with its conversion of textual
arguments.

Conventions of the embedding.

* A `void*` is an `Option HostMem`: `none` is the null pointer, `some m` points at
  memory whose bytes, read in little-endian order from the address on, form the
  number `m`. A typed read `*(T*)p` looks at the low `8 * sizeof(T)` bits of `m`, a
  typed write replaces exactly those bits.
* Machine integers are `Nat` (unsigned) or `Int` (signed) with explicit reduction
  to their width. The host is an LP64 machine: `uintptr_t` has 64 bits.
* Functions of LLVM (`APInt`, `parseIR`, `Module::getFunction`) follow LLVM's own
  documentation and `std::stoi` follows the C++ standard; what depends on the text
  of a program (the parser), on floating point (`std::stod`, the float casts) or on
  the interpreter's evaluation (`runFunction`, `runMain`) is a parameter of the
  embedding.
* `errs()` output is returned as a list of diagnostics, calls into the interpreter
  are returned as a list of events.
-/

set_option autoImplicit false

/-- The ways a call can abort instead of returning: an accessor of a Dynamic Value
used on the wrong variant, an assertion of LLVM, or a fault raised while the
interpreter evaluates a function. -/
inductive Fault
  | TypeMismatch
  | Assertion
  | Engine
  deriving DecidableEq, Repr

namespace llvm

/-- Helper `SignExtend64(X, B)` of LLVM: the low `B` bits of `X` read as a
two's-complement number. -/
def SignExtend64 (X : Nat) (B : Nat) : Int :=
  if X % 2 ^ B < 2 ^ (B - 1) then ((X % 2 ^ B : Nat) : Int)
  else ((X % 2 ^ B : Nat) : Int) - 2 ^ B

/-- An arbitrary-precision integer of LLVM: a declared bit width and the bit
pattern, kept below `2 ^ BitWidth`. -/
structure APInt where
  BitWidth : Nat
  VAL : Nat
  deriving DecidableEq, Repr

namespace APInt

/-- Constructor `APInt(numBits, val, isSigned)` applied to a `uint64_t` value: up
to 64 bits the unused high bits are cleared; above 64 bits the value is zero
extended, or sign extended when `isSigned` is set and bit 63 of `val` is set. -/
def new (numBits : Nat) (val : Nat) (isSigned : Bool) : APInt :=
  if numBits ≤ 64 then ⟨numBits, val % 2 ^ numBits⟩
  else if isSigned && decide (2 ^ 63 ≤ val) then ⟨numBits, val + (2 ^ numBits - 2 ^ 64)⟩
  else ⟨numBits, val⟩

/-- Method `getSExtValue()`: the value as an `int64_t`. A single-word value is
sign extended from its width; a wider one must fit 64 signed bits (asserted). -/
def getSExtValue (a : APInt) : Except Fault Int :=
  if a.BitWidth ≤ 64 then .ok (SignExtend64 a.VAL a.BitWidth)
  else if a.VAL < 2 ^ 63 then .ok (a.VAL : Int)
  else if 2 ^ a.BitWidth - 2 ^ 63 ≤ a.VAL then .ok ((a.VAL : Int) - 2 ^ a.BitWidth)
  else .error Fault.Assertion

/-- Method `getZExtValue()`: the value as a `uint64_t`. A single-word value is
returned as it is; a wider one must have at most 64 active bits (asserted). -/
def getZExtValue (a : APInt) : Except Fault Nat :=
  if a.BitWidth ≤ 64 then .ok a.VAL
  else if a.VAL < 2 ^ 64 then .ok a.VAL
  else .error Fault.Assertion

end APInt

/-- The IR types the bridge and the driver tell apart. -/
inductive IRType
  | VoidTy
  | IntegerTy (bitWidth : Nat)
  | FloatTy
  | DoubleTy
  | PointerTy
  | StructTy
  | OtherTy
  deriving DecidableEq, Repr

/-- A function of a module, as far as the bridge and the driver look at it: its
name, whether it is a declaration (no body), its signature and whether its first
parameter carries the `sret` attribute. -/
structure Function where
  getName : String
  isDeclaration : Bool
  paramTypes : List IRType := []
  hasStructRetAttr : Bool := false
  returnType : IRType := IRType.VoidTy
  deriving DecidableEq, Repr

/-- A module: its identifier and its functions in module order. -/
structure Module where
  ModuleID : String
  functions : List Function
  deriving DecidableEq, Repr

/-- Method `Function::hasName()`: an unnamed function (written `@0`, `@1`, ... in
the text) has the empty name. -/
def Function.hasName (f : Function) : Bool := f.getName != ""

/-- Method `Module::getValueSymbolTable()`, restricted to functions: the functions
of the module that have a name. Unnamed functions are in the function list but not
in the symbol table. -/
def Module.getValueSymbolTable (m : Module) : List Function :=
  m.functions.filter Function.hasName

/-- Method `Module::getFunction(name)`: the function the symbol table holds under
that name, `none` (a null pointer) when it holds none. -/
def Module.getFunction (m : Module) (name : String) : Option Function :=
  m.getValueSymbolTable.find? (fun f => f.getName == name)

/-- The IR reader, a parameter of the embedding: `parse text` is the list of
functions of the program written in `text` (`none` when it does not parse) and
`readFile path` the content of a file (`none` when it cannot be read). -/
structure Frontend where
  parse : String → Option (List Function)
  readFile : String → Option String

/-- Function `parseIR(MemoryBufferRef, err, context)` on a buffer holding `text`
under the identifier `bufferName`: the parsed module, named after the buffer, or
`none` (a null module, with the diagnostic left in `err`). -/
def parseIR (fe : Frontend) (text : String) (bufferName : String) : Option Module :=
  (fe.parse text).map (fun fs => ⟨bufferName, fs⟩)

/-- Function `parseIRFile(filename, err, context)`: reads the file, then parses it
as `parseIR` does, the buffer being named after the file. -/
def parseIRFile (fe : Frontend) (filename : String) : Option Module :=
  match fe.readFile filename with
  | none => none
  | some text => parseIR fe text filename

end llvm

namespace llvm_interpreter

open llvm

/-! ## Host memory and C conversions -/

/-- Memory behind a non-null `void*`, as the little-endian number of its bytes. -/
abbrev HostMem := Nat

/-- Read `*(intW_t*)p`: the low `w` bits as a signed integer. -/
def loadSigned (w : Nat) (p : HostMem) : Int := SignExtend64 p w

/-- Read `*(uintW_t*)p`: the low `w` bits as an unsigned integer. -/
def loadUnsigned (w : Nat) (p : HostMem) : Nat := p % 2 ^ w

/-- Write of a `w`-bit object holding the pattern `bits` at `p`: the low `w` bits
are replaced, the bytes after the object are kept. -/
def storeBits (w : Nat) (bits : Nat) (p : HostMem) : HostMem :=
  p / 2 ^ w * 2 ^ w + bits % 2 ^ w

/-- Write `*(intW_t*)p = v` of a signed value, stored in two's complement. -/
def storeSigned (w : Nat) (v : Int) (p : HostMem) : HostMem :=
  storeBits w (v % 2 ^ w).toNat p

/-- Write `*(uintW_t*)p = v` of an unsigned value. -/
def storeUnsigned (w : Nat) (v : Nat) (p : HostMem) : HostMem :=
  storeBits w v p

/-- Conversion of a signed integer to the `uint64_t` parameter of the `APInt`
constructor: reduction modulo `2 ^ 64`. -/
def toUInt64 (v : Int) : Nat := (v % 2 ^ 64).toNat

/-- Cast `(intW_t)x` of an `int64_t`: the low `w` bits, read as signed. -/
def castSigned (w : Nat) (x : Int) : Int := SignExtend64 (x % 2 ^ w).toNat w

/-- Cast `(uintW_t)x` of a `uint64_t`: the low `w` bits. -/
def castUnsigned (w : Nat) (x : Nat) : Nat := x % 2 ^ w

/-- The two floating-point conversions of the host compiler, on IEEE bit
patterns: `float` to `double` and `double` to `float`. They are parameters of the
embedding. -/
structure FloatOps where
  toDouble : Nat → Nat
  toFloat : Nat → Nat

/-! ## Dynamic Value -/

/-- Modelled from the spec: the address spaces of a pointer value (`DynamicValue.h`
is not among the sources): globals, per-frame stack, and the heap space whose
addresses are host addresses. -/
inductive PointerAddressSpace
  | GLOBAL_SPACE
  | STACK_SPACE
  | HEAP_SPACE
  deriving DecidableEq, Repr

/-- Modelled from the spec: the Dynamic Value (`DynamicValue.h` is not among the
sources), a variant over Undefined, Integer (declared width and bit pattern, no
signedness), Float (precision flag and the value as a `double` bit pattern),
Pointer (address space and address), Struct and Array (ordered components). -/
inductive DynamicValue
  | Undefined
  | Integer (i : APInt)
  | Float (isDouble : Bool) (value : Nat)
  | Pointer (space : PointerAddressSpace) (address : Nat)
  | Struct (fields : List DynamicValue)
  | Array (elements : List DynamicValue)

namespace DynamicValue

/-- Factory `DynamicValue::getUndefValue()`. -/
def getUndefValue : DynamicValue := Undefined

/-- Factory `DynamicValue::getIntValue(APInt)`. -/
def getIntValue (i : APInt) : DynamicValue := Integer i

/-- Factory `DynamicValue::getFloatValue(double, isDouble)`. -/
def getFloatValue (f : Nat) (isDouble : Bool) : DynamicValue := Float isDouble f

/-- Factory `DynamicValue::getPointerValue(space, address)`. -/
def getPointerValue (s : PointerAddressSpace) (a : Nat) : DynamicValue := Pointer s a

/-- Modelled from the spec: factory `DynamicValue::getStructValue(size)`, a
placeholder aggregate of the declared size with no field filled in. -/
def getStructValue (sz : Nat) : DynamicValue := Struct (List.replicate sz Undefined)

/-- Test `isUndefValue()`. -/
def isUndefValue : DynamicValue → Bool
  | Undefined => true
  | _ => false

/-- Test `isStructValue()`. -/
def isStructValue : DynamicValue → Bool
  | Struct _ => true
  | _ => false

/-- Modelled from the spec: accessor `getAsIntValue().getInt()`, the payload of an
Integer and a `TypeMismatch` on every other variant. -/
def getAsIntValue : DynamicValue → Except Fault APInt
  | Integer i => .ok i
  | _ => .error Fault.TypeMismatch

/-- Modelled from the spec: accessor `getAsFloatValue().getFloat()`, the `double`
of a Float and a `TypeMismatch` on every other variant. -/
def getAsFloatValue : DynamicValue → Except Fault Nat
  | Float _ f => .ok f
  | _ => .error Fault.TypeMismatch

/-- Modelled from the spec: accessor `getAsPointerValue().getAddress()`, the
address of a Pointer and a `TypeMismatch` on every other variant. -/
def getAsPointerValue : DynamicValue → Except Fault Nat
  | Pointer _ a => .ok a
  | _ => .error Fault.TypeMismatch

end DynamicValue

/-! ## Type descriptors (`HotFix.h`) -/

/-- Enumeration `TypeKind` of `HotFix.h`. -/
inductive TypeKind
  | INT8 | INT16 | INT32 | INT64
  | UINT8 | UINT16 | UINT32 | UINT64
  | FLOAT | DOUBLE
  | POINTER
  | STRUCT
  deriving DecidableEq, Repr

/-- Record `TypeInfo` of `HotFix.h`: kind, size (used for STRUCT) and an optional
name for debugging. -/
structure TypeInfo where
  kind : TypeKind
  size : Nat
  structName : Option String
  deriving DecidableEq, Repr

/-! ## Conversions (`HotFix.cpp`, lines 82-186) -/

/-- Method `HotFix::convertToDynamicValue(value, typeInfo)`. The `default` branch of
the C++ switch is unreachable here: the twelve kinds are all the values of the
enumeration. -/
def convertToDynamicValue (fp : FloatOps) (value : Option HostMem) (typeInfo : TypeInfo) :
    DynamicValue :=
  match value with
  | none => DynamicValue.getUndefValue
  | some p =>
    match typeInfo.kind with
    | .INT8 => DynamicValue.getIntValue (APInt.new 8 (toUInt64 (loadSigned 8 p)) true)
    | .INT16 => DynamicValue.getIntValue (APInt.new 16 (toUInt64 (loadSigned 16 p)) true)
    | .INT32 => DynamicValue.getIntValue (APInt.new 32 (toUInt64 (loadSigned 32 p)) true)
    | .INT64 => DynamicValue.getIntValue (APInt.new 64 (toUInt64 (loadSigned 64 p)) true)
    | .UINT8 => DynamicValue.getIntValue (APInt.new 8 (loadUnsigned 8 p) false)
    | .UINT16 => DynamicValue.getIntValue (APInt.new 16 (loadUnsigned 16 p) false)
    | .UINT32 => DynamicValue.getIntValue (APInt.new 32 (loadUnsigned 32 p) false)
    | .UINT64 => DynamicValue.getIntValue (APInt.new 64 (loadUnsigned 64 p) false)
    | .FLOAT => DynamicValue.getFloatValue (fp.toDouble (loadUnsigned 32 p)) false
    | .DOUBLE => DynamicValue.getFloatValue (loadUnsigned 64 p) true
    | .POINTER =>
      let addr := loadUnsigned 64 p
      DynamicValue.getPointerValue PointerAddressSpace.HEAP_SPACE addr
    | .STRUCT =>
      if typeInfo.size = 0 then DynamicValue.getUndefValue
      else
        let structVal := DynamicValue.getStructValue typeInfo.size
        structVal

/-- Method `HotFix::convertFromDynamicValue(dv, output, typeInfo)`: the content of
the output buffer after the call (`none` for a null `output`), or the fault that
aborts it. -/
def convertFromDynamicValue (fp : FloatOps) (dv : DynamicValue) (output : Option HostMem)
    (typeInfo : TypeInfo) : Except Fault (Option HostMem) :=
  match output with
  | none => .ok none
  | some out =>
    if dv.isUndefValue then .ok (some out)
    else
      match typeInfo.kind with
      | .INT8 => do
        let x ← (← dv.getAsIntValue).getSExtValue
        pure (some (storeSigned 8 (castSigned 8 x) out))
      | .INT16 => do
        let x ← (← dv.getAsIntValue).getSExtValue
        pure (some (storeSigned 16 (castSigned 16 x) out))
      | .INT32 => do
        let x ← (← dv.getAsIntValue).getSExtValue
        pure (some (storeSigned 32 (castSigned 32 x) out))
      | .INT64 => do
        let x ← (← dv.getAsIntValue).getSExtValue
        pure (some (storeSigned 64 (castSigned 64 x) out))
      | .UINT8 => do
        let x ← (← dv.getAsIntValue).getZExtValue
        pure (some (storeUnsigned 8 (castUnsigned 8 x) out))
      | .UINT16 => do
        let x ← (← dv.getAsIntValue).getZExtValue
        pure (some (storeUnsigned 16 (castUnsigned 16 x) out))
      | .UINT32 => do
        let x ← (← dv.getAsIntValue).getZExtValue
        pure (some (storeUnsigned 32 (castUnsigned 32 x) out))
      | .UINT64 => do
        let x ← (← dv.getAsIntValue).getZExtValue
        pure (some (storeUnsigned 64 (castUnsigned 64 x) out))
      | .FLOAT => do
        let f ← dv.getAsFloatValue
        pure (some (storeBits 32 (fp.toFloat f) out))
      | .DOUBLE => do
        let f ← dv.getAsFloatValue
        pure (some (storeBits 64 f out))
      | .POINTER => do
        let ptrVal ← dv.getAsPointerValue
        let addr := castUnsigned 64 ptrVal
        pure (some (storeUnsigned 64 addr out))
      | .STRUCT => .ok (some out)


/-! ## The interpreter, as the bridge uses it -/

/-- A host callback of the external-call table:
`std::function<DynamicValue(const llvm::Function*, const std::vector<DynamicValue>&)>`. -/
abbrev ExternalCallback := Function → List DynamicValue → DynamicValue

/-- Modelled from the spec: the interpreter (`Interpreter.h` is not among the
sources). It holds the program it was built for, whether the global initializers
have been evaluated, and the external-call table mapping a symbol name to a host
callback. -/
structure Interpreter where
  module : Module
  globalsEvaluated : Bool
  externalFunctions : List (String × ExternalCallback)

namespace Interpreter

/-- Modelled from the spec: constructor `Interpreter(module)`, a fresh engine for a
program, with no global evaluated and an empty external-call table. -/
def new (module : Module) : Interpreter := ⟨module, false, []⟩

/-- Modelled from the spec: method `evaluateGlobals()`, run once after loading. -/
def evaluateGlobals (self : Interpreter) : Interpreter :=
  { self with globalsEvaluated := true }

/-- Modelled from the spec: `register(name, callback)` replaces any existing
registration for that name. -/
def registerExternalFunction (self : Interpreter) (name : String) (callback : ExternalCallback) :
    Interpreter :=
  { self with
    externalFunctions := (name, callback) :: self.externalFunctions.filter (fun e => e.1 != name) }

/-- Modelled from the spec: `unregister(name)` removes the registration. -/
def unregisterExternalFunction (self : Interpreter) (name : String) : Interpreter :=
  { self with externalFunctions := self.externalFunctions.filter (fun e => e.1 != name) }

/-- Modelled from the spec: the lookup made when a call instruction targets a
declaration, by exact symbol name. -/
def lookupExternalFunction (self : Interpreter) (name : String) : Option ExternalCallback :=
  (self.externalFunctions.find? (fun e => e.1 == name)).map (fun e => e.2)

end Interpreter

/-- Method `Interpreter::runFunction(func, args)`, a parameter of the embedding:
the returned Dynamic Value and the interpreter afterwards, or the fault that aborts
the evaluation. -/
abbrev RunFunction :=
  Interpreter → Function → List DynamicValue → Except Fault (DynamicValue × Interpreter)

/-! ## The bridge state and its operations (`HotFix.h`, `HotFix.cpp`) -/

/-- Messages the bridge writes to `errs()`. -/
inductive Diag
  /-- Message "HotFix: Invalid bitcode data". -/
  | InvalidBitcodeData
  /-- The diagnostic of the reader, printed by `err.print("HotFix", errs())`. -/
  | ParseError
  /-- Message "HotFix: Not initialized. Call loadBitcode first.". -/
  | NotInitialized
  /-- Message "HotFix: Function ... not found". -/
  | FunctionNotFound (functionName : String)
  /-- Message "HotFix: Function ... is external (not implemented)". -/
  | ExternalOnly (functionName : String)
  deriving DecidableEq, Repr

/-- State of a `HotFix` object: the fields `module`, `interpreter` (null pointers
are `none`) and `initialized`. The field `context` is created by the constructor
and never reassigned; it is left out. -/
structure HotFix where
  module : Option Module
  interpreter : Option Interpreter
  initialized : Bool

/-- Result of a load operation: the returned flag, the bridge afterwards and what
was written to `errs()`. -/
structure LoadResult where
  result : Bool
  self : HotFix
  errs : List Diag

/-- Result of `executeFunction`: the returned flag, the content of the caller's
return buffer afterwards, the bridge afterwards, what was written to `errs()`, and
the calls made to the interpreter's `runFunction`. -/
structure ExecResult where
  result : Bool
  returnValue : Option HostMem
  self : HotFix
  errs : List Diag
  calls : List (Function × List DynamicValue)

namespace HotFix

/-- Constructor `HotFix::HotFix()`: no module, no interpreter, not initialized. -/
def new : HotFix := ⟨none, none, false⟩

/-- The part shared by the three load operations once a module pointer has been
assigned: a null module prints the diagnostic and returns false, otherwise a fresh
interpreter is built, the globals are evaluated and `initialized` is set. -/
def finishLoad (self : HotFix) (module : Option Module) : LoadResult :=
  match module with
  | none => ⟨false, { self with module := none }, [Diag.ParseError]⟩
  | some m =>
    let interpreter := (Interpreter.new m).evaluateGlobals
    ⟨true, ⟨some m, some interpreter, true⟩, []⟩

/-- Method `HotFix::loadBitcode(bitcodeData, bitcodeSize)`; `bitcodeData` is `none`
for a null pointer and `StringRef(bitcodeData, bitcodeSize)` is the first
`bitcodeSize` characters of the data. -/
def loadBitcode (fe : Frontend) (self : HotFix) (bitcodeData : Option String)
    (bitcodeSize : Nat) : LoadResult :=
  match bitcodeData with
  | none => ⟨false, self, [Diag.InvalidBitcodeData]⟩
  | some data =>
    if bitcodeSize = 0 then ⟨false, self, [Diag.InvalidBitcodeData]⟩
    else finishLoad self (parseIR fe ⟨data.data.take bitcodeSize⟩ "hotfix_bitcode")

/-- Method `HotFix::loadBitcodeFromFile(filename)`. -/
def loadBitcodeFromFile (fe : Frontend) (self : HotFix) (filename : String) : LoadResult :=
  finishLoad self (parseIRFile fe filename)

/-- Method `HotFix::loadBitcodeFromString(irString)`. -/
def loadBitcodeFromString (fe : Frontend) (self : HotFix) (irString : String) : LoadResult :=
  finishLoad self (parseIR fe irString "hotfix_ir")

/-- The argument loop of `executeFunction`: for `i` from 0 to `numArgs - 1`, the
conversion of `args[i]` under `argTypes[i]` is appended to `dynamicArgs`. The two C
arrays are given by their indexing functions. -/
def convertArguments (fp : FloatOps) (args : Nat → Option HostMem) (argTypes : Nat → TypeInfo)
    (numArgs : Nat) : List DynamicValue :=
  (List.range numArgs).foldl
    (fun dynamicArgs i => dynamicArgs ++ [convertToDynamicValue fp (args i) (argTypes i)]) []

/-- Method `HotFix::executeFunction(functionName, args, argTypes, numArgs,
returnType, returnValue)`. -/
def executeFunction (fp : FloatOps) (runFunction : RunFunction) (self : HotFix)
    (functionName : String) (args : Nat → Option HostMem) (argTypes : Nat → TypeInfo)
    (numArgs : Nat) (returnType : Option TypeInfo) (returnValue : Option HostMem) :
    Except Fault ExecResult :=
  match self.initialized, self.interpreter, self.module with
  | true, some interpreter, some module =>
    match module.getFunction functionName with
    | none => .ok ⟨false, returnValue, self, [Diag.FunctionNotFound functionName], []⟩
    | some func =>
      if func.isDeclaration then
        .ok ⟨false, returnValue, self, [Diag.ExternalOnly functionName], []⟩
      else do
        let dynamicArgs := convertArguments fp args argTypes numArgs
        let (retVal, interpreter') ← runFunction interpreter func dynamicArgs
        let returnValue' ←
          match returnType, returnValue with
          | some rt, some out => convertFromDynamicValue fp retVal (some out) rt
          | _, _ => pure returnValue
        pure ⟨true, returnValue', { self with interpreter := some interpreter' }, [],
          [(func, dynamicArgs)]⟩
  | _, _, _ => .ok ⟨false, returnValue, self, [Diag.NotInitialized], []⟩

/-- Method `HotFix::hasFunction(functionName)`. -/
def hasFunction (self : HotFix) (functionName : String) : Bool :=
  match self.module with
  | none => false
  | some module => (module.getFunction functionName).isSome

/-- The loop of `getFunctionNames` over the functions of the module: the name of
every function that is not a declaration is pushed onto `names`. -/
def collectNames : List Function → List String → List String
  | [], names => names
  | func :: rest, names =>
    if !func.isDeclaration then collectNames rest (names ++ [func.getName])
    else collectNames rest names

/-- Method `HotFix::getFunctionNames()`. -/
def getFunctionNames (self : HotFix) : List String :=
  match self.module with
  | none => []
  | some module => collectNames module.functions []

/-- Method `HotFix::registerExternalFunction(name, callback)`: the bridge
afterwards and what was written to `errs()`. -/
def registerExternalFunction (self : HotFix) (name : String) (callback : ExternalCallback) :
    HotFix × List Diag :=
  match self.interpreter with
  | none => (self, [Diag.NotInitialized])
  | some interpreter =>
    ({ self with interpreter := some (interpreter.registerExternalFunction name callback) }, [])

/-- Method `HotFix::unregisterExternalFunction(name)`. -/
def unregisterExternalFunction (self : HotFix) (name : String) : HotFix :=
  match self.interpreter with
  | none => self
  | some interpreter =>
    { self with interpreter := some (interpreter.unregisterExternalFunction name) }

/-- The table an invocation consults for a call to a declaration: the
external-call table of the interpreter the bridge holds, if it holds one. -/
def externalCallback (self : HotFix) (name : String) : Option ExternalCallback :=
  match self.interpreter with
  | none => none
  | some interpreter => interpreter.lookupExternalFunction name

end HotFix

/-! ## Vocabulary of the conversion claims -/

/-- Width in bits of the host type of an integer kind (0 for the other kinds). -/
def TypeKind.bitWidth : TypeKind → Nat
  | .INT8 | .UINT8 => 8
  | .INT16 | .UINT16 => 16
  | .INT32 | .UINT32 => 32
  | .INT64 | .UINT64 => 64
  | _ => 0

/-- The four signed integer kinds. -/
def TypeKind.isSignedInt : TypeKind → Bool
  | .INT8 | .INT16 | .INT32 | .INT64 => true
  | _ => false

/-- The four unsigned integer kinds. -/
def TypeKind.isUnsignedInt : TypeKind → Bool
  | .UINT8 | .UINT16 | .UINT32 | .UINT64 => true
  | _ => false

/-- The eight integer kinds. -/
def TypeKind.isInteger (K : TypeKind) : Bool := K.isSignedInt || K.isUnsignedInt

/-- Least value of the host type of an integer kind. -/
def TypeKind.minValue (K : TypeKind) : Int :=
  if K.isSignedInt then -(2 ^ (K.bitWidth - 1)) else 0

/-- Greatest value of the host type of an integer kind. -/
def TypeKind.maxValue (K : TypeKind) : Int :=
  if K.isSignedInt then 2 ^ (K.bitWidth - 1) - 1 else 2 ^ K.bitWidth - 1

/-- The host value of integer kind `K` read at `p`. -/
def hostLoad (K : TypeKind) (p : HostMem) : Int :=
  if K.isSignedInt then loadSigned K.bitWidth p else (loadUnsigned K.bitWidth p : Int)

/-- The assignment `*(T*)p = v` of a host value `v` of integer kind `K`. -/
def hostStore (K : TypeKind) (v : Int) (p : HostMem) : HostMem :=
  if K.isSignedInt then storeSigned K.bitWidth v p else storeUnsigned K.bitWidth v.toNat p


/-! ## Concrete hosts for the closed examples -/

/-- Float conversions for the closed examples below. None of them uses a FLOAT or
DOUBLE descriptor, so none depends on this choice. -/
def exampleFloatOps : FloatOps := ⟨fun f => f, fun d => d⟩

/-- The program of `examples/hotfix_external_call_example.cpp`, first example: the
declaration of `add` and the definition of `bugfix`. -/
def bugfixCode : String :=
  "declare i32 @add(i32, i32) define i32 @bugfix(i32 %x) \x7b %result = call i32 @add(i32 %x, i32 1) ret i32 %result \x7d"

/-- The functions of `bugfixCode`, in module order. -/
def bugfixFunctions : List Function :=
  [{ getName := "add", isDeclaration := true,
     paramTypes := [IRType.IntegerTy 32, IRType.IntegerTy 32], returnType := IRType.IntegerTy 32 },
   { getName := "bugfix", isDeclaration := false,
     paramTypes := [IRType.IntegerTy 32], returnType := IRType.IntegerTy 32 }]

/-- A reader for the closed examples: the empty text is the empty program (the
assembly reader of LLVM accepts it), `bugfixCode` has the two functions above, any
other text is taken not to parse, and no file can be read. -/
def exampleFrontend : Frontend where
  parse text :=
    if text = "" then some []
    else if text = bugfixCode then some bugfixFunctions
    else none
  readFile _ := none

/-- An engine for the closed examples: every evaluation returns the 32-bit Integer
11 (the value of `bugfix(10)` once `add` is registered) and leaves the interpreter
as it is. -/
def exampleRun : RunFunction :=
  fun interpreter _ _ => .ok (DynamicValue.Integer ⟨32, 11⟩, interpreter)

/-- A host callback for the closed examples. -/
def exampleCallback : ExternalCallback := fun _ _ => DynamicValue.Integer ⟨32, 11⟩

/-- The bridge of the example once `bugfixCode` has been loaded from a string. -/
def exampleLoaded : HotFix :=
  (HotFix.loadBitcodeFromString exampleFrontend HotFix.new bugfixCode).self

/-- Argument array of the examples: one argument, the `int32_t` 10. -/
def exampleArgs : Nat → Option HostMem := fun _ => some 10

/-- Equivalence of two bridge states, as the load claims use it: the same
`initialized` flag, modules with the same functions, and interpreters built for the
same functions with the same globals flag and external-call table. Only the module
identifier, which is the name of the buffer a program was read from, may differ. -/
def HotFix.equivalent (a b : HotFix) : Prop :=
  a.initialized = b.initialized
    ∧ a.module.map (fun m => m.functions) = b.module.map (fun m => m.functions)
    ∧ a.interpreter.map (fun i => (i.module.functions, i.globalsEvaluated, i.externalFunctions))
        = b.interpreter.map (fun i => (i.module.functions, i.globalsEvaluated, i.externalFunctions))

/-! ## The command-line driver (`main.cpp`) -/

/-- Exceptions thrown by `std::stoi` and `std::stod`. -/
inductive StdException
  | invalid_argument
  | out_of_range
  deriving DecidableEq, Repr

/-- Test `isspace` of the C locale: space (32) and the control characters 9 to 13
(tab, newline, vertical tab, form feed, carriage return). -/
def isspace (c : Char) : Bool := c.toNat = 32 || (9 ≤ c.toNat && c.toNat ≤ 13)

/-- Function `std::stoi(str)` in base 10, as the C++ standard defines it through
`strtol`: leading white space is skipped, one sign (`-` is 45, `+` is 43) may
follow, then the longest run of decimal digits is read and what follows is
ignored. No digit throws `invalid_argument`, a value outside `int` (32 bits) throws
`out_of_range`. -/
def stoi (str : String) : Except StdException Int :=
  let s := str.data.dropWhile isspace
  let negative : Bool := match s with
    | c :: _ => c.toNat = 45
    | [] => false
  let body := match s with
    | c :: rest => if c.toNat = 45 ∨ c.toNat = 43 then rest else s
    | [] => s
  let digits := body.takeWhile Char.isDigit
  if digits.isEmpty then .error StdException.invalid_argument
  else
    let magnitude : Nat := digits.foldl (fun acc c => 10 * acc + (c.toNat - 48)) 0
    let value : Int := if negative then -(magnitude : Int) else (magnitude : Int)
    if value < -(2 ^ 31) ∨ 2 ^ 31 - 1 < value then .error StdException.out_of_range
    else .ok value

/-- Function `std::stod(str)`, a parameter of the embedding: the `double` read from
a text, as its bit pattern, or the exception thrown. -/
abbrev Stod := String → Except StdException Nat

/-- Method `Interpreter::runMain(entryFn, mainArgs)`, a parameter of the embedding:
the returned integer and the interpreter afterwards, or the fault that aborts the
evaluation. -/
abbrev RunMain := Interpreter → Function → List String → Except Fault (Int × Interpreter)

/-- Messages the driver writes to `errs()`. The text printed for a returned value
depends on its variant; only the value is kept here. -/
inductive DriverDiag
  /-- The diagnostic of the reader, printed by `err.print(argv[0], errs())`. -/
  | ParseError
  /-- Message "Function ... not found in module." -/
  | FunctionNotFound (functionName : String)
  /-- Message "Note: Function uses struct return (sret), first parameter is output". -/
  | StructReturnNote
  /-- Message "Unsupported parameter type for function ...". -/
  | UnsupportedParameterType (functionName : String)
  /-- Message "Warning: ... extra arguments ignored". -/
  | ExtraArgumentsIgnored (count : Nat)
  /-- Message "Interpreter returns value ..." of the `main` path. -/
  | MainReturns (retInt : Int)
  /-- Message "Interpreter returns ..." of the other path, for any variant. -/
  | Returns (retVal : DynamicValue)

/-- Calls the driver makes into the interpreter. -/
inductive DriverCall
  | runMain (entryFn : Function) (mainArgs : List String)
  | runFunction (entryFn : Function) (args : List DynamicValue)

/-- What ends a run of the driver without an exit status of its own: an uncaught
exception of the standard library or a fault inside the interpreter. -/
inductive Abort
  | Exception (e : StdException)
  | Fault (f : Fault)

/-- A completed run of the driver: the exit status (`return -1` and `std::exit(1)`
are the two non-zero ones), what was written to `errs()`, and the calls made into
the interpreter. -/
structure DriverOutcome where
  exitCode : Int
  errs : List DriverDiag
  calls : List DriverCall

/-- Result of the argument conversion loop of the driver: it either hits an
unsupported parameter type (the driver then returns -1) or ends with the converted
arguments and the number of textual arguments consumed. -/
inductive LoopResult
  | Unsupported
  | Done (args : List DynamicValue) (argIdx : Nat)

namespace Driver

/-- The loop `for (i = paramStart; i < numParams && argIdx < InputArgv.size(); ++i,
++argIdx)` of `main`, over the parameter types from `paramStart` on and the textual
arguments from `argIdx` on. -/
def convertLoop (stod : Stod) :
    List IRType → List String → List DynamicValue → Nat → Except StdException LoopResult
  | [], _, args, argIdx => .ok (LoopResult.Done args argIdx)
  | _ :: _, [], args, argIdx => .ok (LoopResult.Done args argIdx)
  | paramType :: params, text :: texts, args, argIdx =>
    match paramType with
    | IRType.IntegerTy bitWidth =>
      match stoi text with
      | .error e => .error e
      | .ok intVal =>
        convertLoop stod params texts
          (args ++ [DynamicValue.getIntValue (APInt.new bitWidth (toUInt64 intVal) true)])
          (argIdx + 1)
    | IRType.FloatTy =>
      match stod text with
      | .error e => .error e
      | .ok floatVal =>
        convertLoop stod params texts (args ++ [DynamicValue.getFloatValue floatVal false])
          (argIdx + 1)
    | IRType.DoubleTy =>
      match stod text with
      | .error e => .error e
      | .ok floatVal =>
        convertLoop stod params texts (args ++ [DynamicValue.getFloatValue floatVal true])
          (argIdx + 1)
    | _ => .ok LoopResult.Unsupported

/-- The value of `paramStart`: 1 when the function has a first parameter of pointer
type carrying the `sret` attribute, else 0. -/
def paramStart (entryFn : Function) : Nat :=
  if 0 < entryFn.paramTypes.length ∧ entryFn.paramTypes.head? = some IRType.PointerTy then
    if entryFn.hasStructRetAttr then 1 else 0
  else 0

/-- Function `main` of `main.cpp` on the parsed command line: the input file, the
value of `-function` and the program arguments. -/
def main (fe : Frontend) (stod : Stod) (runMain : RunMain) (runFunction : RunFunction)
    (InputFile FunctionName : String) (InputArgv : List String) :
    Except Abort DriverOutcome :=
  match parseIRFile fe InputFile with
  | none => .ok ⟨1, [DriverDiag.ParseError], []⟩
  | some module =>
    let interpreter := (Interpreter.new module).evaluateGlobals
    match module.getFunction FunctionName with
    | none => .ok ⟨-1, [DriverDiag.FunctionNotFound FunctionName], []⟩
    | some entryFn =>
      if FunctionName = "main" then
        let mainArgs := InputFile :: InputArgv
        match runMain interpreter entryFn mainArgs with
        | .error f => .error (Abort.Fault f)
        | .ok (retInt, _) =>
          .ok ⟨0, [DriverDiag.MainReturns retInt], [DriverCall.runMain entryFn mainArgs]⟩
      else
        let note :=
          if paramStart entryFn = 1 then [DriverDiag.StructReturnNote] else []
        match convertLoop stod (entryFn.paramTypes.drop (paramStart entryFn)) InputArgv [] 0 with
        | .error e => .error (Abort.Exception e)
        | .ok LoopResult.Unsupported =>
          .ok ⟨-1, note ++ [DriverDiag.UnsupportedParameterType FunctionName], []⟩
        | .ok (LoopResult.Done args argIdx) =>
          let warning :=
            if argIdx < InputArgv.length then
              [DriverDiag.ExtraArgumentsIgnored (InputArgv.length - argIdx)]
            else []
          match runFunction interpreter entryFn args with
          | .error f => .error (Abort.Fault f)
          | .ok (retVal, _) =>
            .ok ⟨0, note ++ warning ++ [DriverDiag.Returns retVal],
              [DriverCall.runFunction entryFn args]⟩

/-- The conversion of one textual argument per the declared type of a parameter,
as the driver claims word it: for an integer parameter of width `w` the Integer of
width `w` whose bit pattern is the 32-bit signed decimal read from the text, sign
extended or truncated to `w` bits; for a float or double parameter the Float of
that precision read from the text. There is none for another kind of parameter or
for a text that `std::stoi` or `std::stod` does not accept. -/
def convertedArgument (stod : Stod) (paramType : IRType) (text : String) :
    Option DynamicValue :=
  match paramType with
  | IRType.IntegerTy w =>
    match stoi text with
    | .ok v => some (DynamicValue.Integer ⟨w, (v % 2 ^ w).toNat⟩)
    | .error _ => none
  | IRType.FloatTy =>
    match stod text with
    | .ok d => some (DynamicValue.Float false d)
    | .error _ => none
  | IRType.DoubleTy =>
    match stod text with
    | .ok d => some (DynamicValue.Float true d)
    | .error _ => none
  | _ => none

/-- A parameter type the driver converts: integer, float or double. -/
def supported : IRType → Bool
  | IRType.IntegerTy _ | IRType.FloatTy | IRType.DoubleTy => true
  | _ => false

end Driver

/-- Function `fill(i32, ptr)` of the driver examples, with a body. -/
def fillFn : Function :=
  { getName := "fill", isDeclaration := false,
    paramTypes := [IRType.IntegerTy 32, IRType.PointerTy], returnType := IRType.VoidTy }

/-- Function `scale(i8, double)` of the driver examples, with a body. -/
def scaleFn : Function :=
  { getName := "scale", isDeclaration := false,
    paramTypes := [IRType.IntegerTy 8, IRType.DoubleTy], returnType := IRType.DoubleTy }

/-- The functions of the program used in the driver examples, in module order. -/
def driverFunctions : List Function := [fillFn, scaleFn]

/-- Text of the program used in the driver examples. -/
def driverCode : String :=
  "define void @fill(i32 %n, ptr %p) \x7b ret void \x7d define double @scale(i8 %k, double %x) \x7b ret double %x \x7d"

/-- A reader for the driver examples: the file `driver.ll` holds `driverCode`, whose
functions are `driverFunctions`. -/
def driverFrontend : Frontend where
  parse text := if text = driverCode then some driverFunctions else none
  readFile path := if path = "driver.ll" then some driverCode else none

/-- A `std::stod` for the driver examples: the text `1.5` is the double with the
bit pattern `0x3FF8000000000000`; no other text is used. -/
def exampleStod : Stod :=
  fun text => if text = "1.5" then .ok 0x3FF8000000000000 else .error StdException.invalid_argument

/-- A `runMain` for the driver examples: returns 0. -/
def exampleRunMain : RunMain := fun interpreter _ _ => .ok (0, interpreter)

/-- Text of a program whose only function has a body and no name. -/
def unnamedCode : String := "define void @0() \x7b ret void \x7d"

/-- The function of `unnamedCode`: its name is empty. -/
def unnamedFn : Function := { getName := "", isDeclaration := false }

/-- A reader for the example of an unnamed function. -/
def unnamedFrontend : Frontend where
  parse text := if text = unnamedCode then some [unnamedFn] else none
  readFile _ := none

/-- The bridge once `unnamedCode` has been loaded from a string. -/
def unnamedLoaded : HotFix :=
  (HotFix.loadBitcodeFromString unnamedFrontend HotFix.new unnamedCode).self

/-! ## Vocabulary of the claims on `executeFunction` and `hasFunction` -/

theorem two_pow_pos_int (w : Nat) : (0 : Int) < 2 ^ w := by positivity

theorem SignExtend64_emod (X B : Nat) :
    SignExtend64 X B % 2 ^ B = ((X % 2 ^ B : Nat) : Int) := by
  have hlt : ((X % 2 ^ B : Nat) : Int) < 2 ^ B := by
    exact_mod_cast Nat.mod_lt X (Nat.two_pow_pos B)
  have h0 : (0 : Int) ≤ ((X % 2 ^ B : Nat) : Int) := Int.ofNat_nonneg _
  unfold SignExtend64
  split
  · exact Int.emod_eq_of_lt h0 hlt
  · rw [Int.sub_emod, Int.emod_self, sub_zero, Int.emod_emod_of_dvd _ (dvd_refl _)]
    exact Int.emod_eq_of_lt h0 hlt

theorem toNat_emod_two_pow (v : Int) (w : Nat) : (((v % 2 ^ w).toNat : Nat) : Int) = v % 2 ^ w :=
  Int.toNat_of_nonneg (Int.emod_nonneg _ (ne_of_gt (two_pow_pos_int w)))

theorem toNat_emod_lt (v : Int) (w : Nat) : (v % 2 ^ w).toNat < 2 ^ w := by
  have h := Int.emod_lt_of_pos v (two_pow_pos_int w)
  have h2 := toNat_emod_two_pow v w
  have : (((v % 2 ^ w).toNat : Nat) : Int) < ((2 ^ w : Nat) : Int) := by
    rw [h2]; exact_mod_cast h
  exact_mod_cast this

theorem toUInt64_mod (v : Int) (w : Nat) (hw : w ≤ 64) :
    toUInt64 v % 2 ^ w = (v % 2 ^ w).toNat := by
  have hd : (2 : Int) ^ w ∣ 2 ^ 64 := pow_dvd_pow 2 hw
  have h1 : (((toUInt64 v % 2 ^ w : Nat)) : Int) = v % 2 ^ w := by
    unfold toUInt64
    rw [Int.natCast_mod, toNat_emod_two_pow]
    push_cast
    exact Int.emod_emod_of_dvd v hd
  have h2 := toNat_emod_two_pow v w
  have : (((toUInt64 v % 2 ^ w : Nat)) : Int) = (((v % 2 ^ w).toNat : Nat) : Int) := by
    rw [h1, h2]
  exact_mod_cast this

theorem loadSigned_pattern (w : Nat) (p : HostMem) (hw : w ≤ 64) :
    toUInt64 (loadSigned w p) % 2 ^ w = p % 2 ^ w := by
  rw [toUInt64_mod _ _ hw]
  unfold loadSigned
  rw [SignExtend64_emod]
  exact Int.toNat_ofNat _

theorem storeBits_mod (w bits : Nat) (p : HostMem) : storeBits w bits p % 2 ^ w = bits % 2 ^ w := by
  unfold storeBits
  rw [Nat.add_comm, Nat.add_mul_mod_self_right, Nat.mod_mod]

theorem storeBits_div (w bits : Nat) (p : HostMem) : storeBits w bits p / 2 ^ w = p / 2 ^ w := by
  unfold storeBits
  rw [Nat.add_comm, Nat.add_mul_div_right _ _ (Nat.two_pow_pos w),
    Nat.div_eq_of_lt (Nat.mod_lt _ (Nat.two_pow_pos w)), Nat.zero_add]

theorem storeBits_mod_arg (w bits : Nat) (p : HostMem) :
    storeBits w (bits % 2 ^ w) p = storeBits w bits p := by
  unfold storeBits
  rw [Nat.mod_mod]

theorem storeSigned_castSigned (w b : Nat) (out : HostMem) :
    storeSigned w (castSigned w (SignExtend64 b w)) out = storeBits w b out := by
  unfold storeSigned castSigned
  rw [SignExtend64_emod, SignExtend64_emod, Int.toNat_ofNat, Int.toNat_ofNat, Nat.mod_mod,
    storeBits_mod_arg]


theorem convertTo_integer (fp : FloatOps) (K : TypeKind) (hK : K.isInteger = true) (p : HostMem)
    (size : Nat) (name : Option String) :
    convertToDynamicValue fp (some p) ⟨K, size, name⟩
      = DynamicValue.Integer ⟨K.bitWidth, p % 2 ^ K.bitWidth⟩ := by
  cases K <;>
    simp [TypeKind.isInteger, TypeKind.isSignedInt, TypeKind.isUnsignedInt] at hK <;>
    simp only [convertToDynamicValue, DynamicValue.getIntValue, APInt.new, TypeKind.bitWidth,
      loadUnsigned, loadSigned_pattern, Nat.reduceLeDiff, if_true, le_refl, Nat.mod_mod]

theorem convertFrom_integer (fp : FloatOps) (K : TypeKind) (hK : K.isInteger = true) (b : Nat)
    (out : HostMem) (size : Nat) (name : Option String) :
    convertFromDynamicValue fp (DynamicValue.Integer ⟨K.bitWidth, b⟩) (some out) ⟨K, size, name⟩
      = .ok (some (storeBits K.bitWidth b out)) := by
  cases K <;>
    simp [TypeKind.isInteger, TypeKind.isSignedInt, TypeKind.isUnsignedInt] at hK <;>
    simp only [convertFromDynamicValue, DynamicValue.isUndefValue, DynamicValue.getAsIntValue,
      APInt.getSExtValue, APInt.getZExtValue, TypeKind.bitWidth, bind, Except.bind, pure,
      Except.pure, Nat.reduceLeDiff, if_true, le_refl, storeSigned_castSigned, storeUnsigned,
      castUnsigned, storeBits_mod_arg] <;> rfl

theorem hostLoad_hostStore (K : TypeKind) (hK : K.isInteger = true) (v : Int)
    (hmin : K.minValue ≤ v) (hmax : v ≤ K.maxValue) (p : HostMem) :
    hostLoad K (hostStore K v p) = v := by
  cases K <;>
    simp [TypeKind.isInteger, TypeKind.isSignedInt, TypeKind.isUnsignedInt] at hK <;>
    simp only [TypeKind.minValue, TypeKind.maxValue, TypeKind.isSignedInt, TypeKind.bitWidth,
      if_true, Bool.false_eq_true, if_false] at hmin hmax <;>
    simp only [hostLoad, hostStore, TypeKind.isSignedInt, TypeKind.bitWidth, if_true,
      Bool.false_eq_true, if_false, loadSigned, loadUnsigned, storeSigned, storeUnsigned,
      SignExtend64, storeBits_mod] <;>
    norm_num at hmin hmax ⊢ <;>
    omega


/-! ## C1 - C4: conversions of integers and pointers -/

/-- C1: for every integer kind `K` and every host value `v` of that kind, stored by
the caller at the argument address, converting it to a Dynamic Value and back under
the same descriptor performs exactly the assignment of `v` to the output buffer:
the buffer then reads as `v` and the bytes after the object are untouched. -/
theorem convertFrom_convertTo_host_integer (fp : FloatOps) (K : TypeKind)
    (hK : K.isInteger = true) (v : Int) (hmin : K.minValue ≤ v) (hmax : v ≤ K.maxValue)
    (m out : HostMem) (size : Nat) (name : Option String) :
    hostLoad K (hostStore K v m) = v
      ∧ convertFromDynamicValue fp
          (convertToDynamicValue fp (some (hostStore K v m)) ⟨K, size, name⟩)
          (some out) ⟨K, size, name⟩ = .ok (some (hostStore K v out))
      ∧ hostLoad K (hostStore K v out) = v
      ∧ hostStore K v out / 2 ^ K.bitWidth = out / 2 ^ K.bitWidth := by
  refine ⟨hostLoad_hostStore K hK v hmin hmax m, ?_, hostLoad_hostStore K hK v hmin hmax out, ?_⟩
  · rw [convertTo_integer fp K hK, convertFrom_integer fp K hK]
    cases K <;>
      simp [TypeKind.isInteger, TypeKind.isSignedInt, TypeKind.isUnsignedInt] at hK <;>
      simp only [hostStore, TypeKind.isSignedInt, TypeKind.bitWidth, if_true, Bool.false_eq_true,
        if_false, storeSigned, storeUnsigned, storeBits_mod, storeBits_mod_arg]
  · cases K <;>
      simp [TypeKind.isInteger, TypeKind.isSignedInt, TypeKind.isUnsignedInt] at hK <;>
      simp only [hostStore, TypeKind.isSignedInt, TypeKind.bitWidth, if_true, Bool.false_eq_true,
        if_false, storeSigned, storeUnsigned, storeBits_div]

/-- C1, at INT8 and the host value -1, the output buffer holding 0x1234 before. -/
theorem convertFrom_convertTo_host_integer_witness :
    hostLoad TypeKind.INT8 (hostStore TypeKind.INT8 (-1) 0) = -1
      ∧ convertFromDynamicValue exampleFloatOps
          (convertToDynamicValue exampleFloatOps (some (hostStore TypeKind.INT8 (-1) 0))
            ⟨TypeKind.INT8, 1, none⟩)
          (some 0x1234) ⟨TypeKind.INT8, 1, none⟩ = .ok (some (hostStore TypeKind.INT8 (-1) 0x1234))
      ∧ hostLoad TypeKind.INT8 (hostStore TypeKind.INT8 (-1) 0x1234) = -1
      ∧ hostStore TypeKind.INT8 (-1) 0x1234 / 2 ^ TypeKind.INT8.bitWidth
          = 0x1234 / 2 ^ TypeKind.INT8.bitWidth :=
  convertFrom_convertTo_host_integer exampleFloatOps TypeKind.INT8 rfl (-1) (by decide)
    (by decide) 0 0x1234 1 none

/-- C2: for every integer kind `K` (signed or unsigned, of width 8, 16, 32 or 64)
and every Integer Dynamic Value of that width, whatever its bit pattern, converting
it to the host under `K` succeeds, and converting the written host value back under
`K` gives the Dynamic Value again: same width, same bit pattern. -/
theorem convertTo_convertFrom_integer (fp : FloatOps) (K : TypeKind) (hK : K.isInteger = true)
    (bits : Nat) (hbits : bits < 2 ^ K.bitWidth) (out : HostMem) (size : Nat)
    (name : Option String) :
    ∃ out', convertFromDynamicValue fp (DynamicValue.Integer ⟨K.bitWidth, bits⟩) (some out)
          ⟨K, size, name⟩ = .ok (some out')
      ∧ convertToDynamicValue fp (some out') ⟨K, size, name⟩
          = DynamicValue.Integer ⟨K.bitWidth, bits⟩ := by
  refine ⟨storeBits K.bitWidth bits out, convertFrom_integer fp K hK bits out size name, ?_⟩
  rw [convertTo_integer fp K hK, storeBits_mod, Nat.mod_eq_of_lt hbits]

/-- C2, at UINT16 and the all-ones pattern (the pattern of -1). -/
theorem convertTo_convertFrom_integer_witness :
    ∃ out', convertFromDynamicValue exampleFloatOps
          (DynamicValue.Integer ⟨TypeKind.UINT16.bitWidth, 0xFFFF⟩) (some 7)
          ⟨TypeKind.UINT16, 2, none⟩ = .ok (some out')
      ∧ convertToDynamicValue exampleFloatOps (some out') ⟨TypeKind.UINT16, 2, none⟩
          = DynamicValue.Integer ⟨TypeKind.UINT16.bitWidth, 0xFFFF⟩ :=
  convertTo_convertFrom_integer exampleFloatOps TypeKind.UINT16 rfl 0xFFFF (by decide) 7 2 none

theorem convertFrom_pointer (fp : FloatOps) (space : PointerAddressSpace) (address : Nat)
    (out : HostMem) (size : Nat) (name : Option String) :
    convertFromDynamicValue fp (DynamicValue.Pointer space address) (some out)
        ⟨TypeKind.POINTER, size, name⟩ = .ok (some (storeBits 64 address out)) := by
  simp only [convertFromDynamicValue, DynamicValue.isUndefValue, DynamicValue.getAsPointerValue,
    bind, Except.bind, pure, Except.pure, storeUnsigned, castUnsigned, storeBits_mod_arg]
  rfl

theorem convertTo_pointer (fp : FloatOps) (p : HostMem) (size : Nat) (name : Option String) :
    convertToDynamicValue fp (some p) ⟨TypeKind.POINTER, size, name⟩
      = DynamicValue.Pointer PointerAddressSpace.HEAP_SPACE (p % 2 ^ 64) := by
  simp only [convertToDynamicValue, DynamicValue.getPointerValue, loadUnsigned]

/-- C3, as the code has it: a pointer Dynamic Value `Pointer(space, address)` taken
to the host under the POINTER descriptor and back comes back as
`Pointer(HEAP_SPACE, address)`. The address is always preserved; the value is equal
to the original exactly when its address space is the heap space. -/
theorem convertTo_convertFrom_pointer (fp : FloatOps) (space : PointerAddressSpace)
    (address : Nat) (haddr : address < 2 ^ 64) (out : HostMem) (size : Nat)
    (name : Option String) :
    ∃ out', convertFromDynamicValue fp (DynamicValue.Pointer space address) (some out)
          ⟨TypeKind.POINTER, size, name⟩ = .ok (some out')
      ∧ convertToDynamicValue fp (some out') ⟨TypeKind.POINTER, size, name⟩
          = DynamicValue.Pointer PointerAddressSpace.HEAP_SPACE address
      ∧ (convertToDynamicValue fp (some out') ⟨TypeKind.POINTER, size, name⟩
          = DynamicValue.Pointer space address ↔ space = PointerAddressSpace.HEAP_SPACE) := by
  have hback : convertToDynamicValue fp (some (storeBits 64 address out))
      ⟨TypeKind.POINTER, size, name⟩
        = DynamicValue.Pointer PointerAddressSpace.HEAP_SPACE address := by
    rw [convertTo_pointer, storeBits_mod, Nat.mod_eq_of_lt haddr]
  refine ⟨storeBits 64 address out, convertFrom_pointer fp space address out size name, hback, ?_⟩
  rw [hback]
  constructor
  · intro h
    injection h with hs _
    exact hs.symm
  · intro h
    rw [h]

/-- C3 as amended, at a heap pointer. -/
theorem convertTo_convertFrom_pointer_witness :
    ∃ out', convertFromDynamicValue exampleFloatOps
          (DynamicValue.Pointer PointerAddressSpace.HEAP_SPACE 0x7ffe0010) (some 0)
          ⟨TypeKind.POINTER, 8, none⟩ = .ok (some out')
      ∧ convertToDynamicValue exampleFloatOps (some out') ⟨TypeKind.POINTER, 8, none⟩
          = DynamicValue.Pointer PointerAddressSpace.HEAP_SPACE 0x7ffe0010
      ∧ (convertToDynamicValue exampleFloatOps (some out') ⟨TypeKind.POINTER, 8, none⟩
          = DynamicValue.Pointer PointerAddressSpace.HEAP_SPACE 0x7ffe0010
          ↔ PointerAddressSpace.HEAP_SPACE = PointerAddressSpace.HEAP_SPACE) :=
  convertTo_convertFrom_pointer exampleFloatOps PointerAddressSpace.HEAP_SPACE 0x7ffe0010
    (by decide) 0 8 none

/-- C3 as stated fails: the globals-space pointer `Pointer(GLOBAL_SPACE, 4096)` is
written to the host as the address 4096 and read back as `Pointer(HEAP_SPACE, 4096)`,
a different Dynamic Value. -/
theorem pointer_roundtrip_changes_space :
    convertFromDynamicValue exampleFloatOps
        (DynamicValue.Pointer PointerAddressSpace.GLOBAL_SPACE 4096) (some 0)
        ⟨TypeKind.POINTER, 8, none⟩ = .ok (some 4096)
      ∧ convertToDynamicValue exampleFloatOps (some 4096) ⟨TypeKind.POINTER, 8, none⟩
          = DynamicValue.Pointer PointerAddressSpace.HEAP_SPACE 4096
      ∧ DynamicValue.Pointer PointerAddressSpace.HEAP_SPACE 4096
          ≠ DynamicValue.Pointer PointerAddressSpace.GLOBAL_SPACE 4096 := by
  refine ⟨?_, ?_, ?_⟩
  · rw [convertFrom_pointer]; rfl
  · rw [convertTo_pointer]; rfl
  · intro h
    injection h with hs _
    exact absurd hs (by decide)

theorem hostLoad_pattern (K : TypeKind) (hK : K.isInteger = true) (p : HostMem) :
    (hostLoad K p % 2 ^ K.bitWidth).toNat = p % 2 ^ K.bitWidth := by
  cases K <;>
    simp [TypeKind.isInteger, TypeKind.isSignedInt, TypeKind.isUnsignedInt] at hK <;>
    simp only [hostLoad, TypeKind.isSignedInt, TypeKind.bitWidth, if_true, Bool.false_eq_true,
      if_false, loadSigned, loadUnsigned, SignExtend64_emod, Int.toNat_ofNat] <;>
    omega

/-- C4: for every integer kind `K` and every non-null host value, the conversion
returns an Integer whose declared width is the width of `K` and whose bit pattern
is the two's-complement pattern of the host value at that width. Consequently two
integer descriptors of the same width (such as INT8 and UINT8) applied to host
values with the same pattern (such as -1 and 255) give equal Dynamic Values. -/
theorem convertTo_integer_width_and_pattern (fp : FloatOps) (K : TypeKind)
    (hK : K.isInteger = true) (p : HostMem) (size : Nat) (name : Option String) :
    convertToDynamicValue fp (some p) ⟨K, size, name⟩
        = DynamicValue.Integer ⟨K.bitWidth, (hostLoad K p % 2 ^ K.bitWidth).toNat⟩
      ∧ ∀ (K' : TypeKind) (p' : HostMem) (size' : Nat) (name' : Option String),
          K'.isInteger = true → K'.bitWidth = K.bitWidth →
          hostLoad K' p' % 2 ^ K.bitWidth = hostLoad K p % 2 ^ K.bitWidth →
          convertToDynamicValue fp (some p') ⟨K', size', name'⟩
            = convertToDynamicValue fp (some p) ⟨K, size, name⟩ := by
  constructor
  · rw [convertTo_integer fp K hK, hostLoad_pattern K hK]
  · intro K' p' size' name' hK' hw hpat
    rw [convertTo_integer fp K hK, convertTo_integer fp K' hK', hw]
    have h1 := hostLoad_pattern K hK p
    have h2 := hostLoad_pattern K' hK' p'
    rw [hw, hpat, h1] at h2
    rw [h2]

/-- C4, at INT8 holding -1 and UINT8 holding 255 (followed by different bytes). -/
theorem convertTo_integer_width_and_pattern_witness :
    convertToDynamicValue exampleFloatOps (some 0x1FF) ⟨TypeKind.INT8, 1, none⟩
        = DynamicValue.Integer
            ⟨TypeKind.INT8.bitWidth, (hostLoad TypeKind.INT8 0x1FF % 2 ^ TypeKind.INT8.bitWidth).toNat⟩
      ∧ hostLoad TypeKind.INT8 0x1FF = -1 ∧ hostLoad TypeKind.UINT8 0x2FF = 255
      ∧ convertToDynamicValue exampleFloatOps (some 0x2FF) ⟨TypeKind.UINT8, 1, none⟩
          = convertToDynamicValue exampleFloatOps (some 0x1FF) ⟨TypeKind.INT8, 1, none⟩ :=
  ⟨(convertTo_integer_width_and_pattern exampleFloatOps TypeKind.INT8 rfl 0x1FF 1 none).1,
    by decide, by decide,
    (convertTo_integer_width_and_pattern exampleFloatOps TypeKind.INT8 rfl 0x1FF 1 none).2
      TypeKind.UINT8 0x2FF 1 none rfl rfl (by decide)⟩

/-! ## C5: rejections of `executeFunction` -/

theorem exampleLoaded_eq :
    exampleLoaded = ⟨some ⟨"hotfix_ir", bugfixFunctions⟩,
      some ⟨⟨"hotfix_ir", bugfixFunctions⟩, true, []⟩, true⟩ := by
  simp [exampleLoaded, HotFix.loadBitcodeFromString, HotFix.finishLoad, parseIR, exampleFrontend,
    bugfixCode, Interpreter.new, Interpreter.evaluateGlobals]

/-- C5: `executeFunction` returns false, writes one diagnostic, makes no call to
`runFunction` and leaves the return buffer and the bridge as they were, (1) with
`NotInitialized` whenever `initialized` is false or the interpreter or the module
is missing, whatever the name; (2) on a loaded bridge, with `FunctionNotFound` when
the module has no function of that name; (3) on a loaded bridge, with
`ExternalOnly` when the function of that name is a declaration. -/
theorem executeFunction_rejects (fp : FloatOps) (runFunction : RunFunction) (self : HotFix)
    (functionName : String) (args : Nat → Option HostMem) (argTypes : Nat → TypeInfo)
    (numArgs : Nat) (returnType : Option TypeInfo) (returnValue : Option HostMem) :
    ((self.initialized = false ∨ self.interpreter = none ∨ self.module = none) →
        HotFix.executeFunction fp runFunction self functionName args argTypes numArgs returnType
          returnValue = .ok ⟨false, returnValue, self, [Diag.NotInitialized], []⟩)
      ∧ (∀ interpreter module, self.initialized = true → self.interpreter = some interpreter →
          self.module = some module → module.getFunction functionName = none →
          HotFix.executeFunction fp runFunction self functionName args argTypes numArgs
            returnType returnValue
            = .ok ⟨false, returnValue, self, [Diag.FunctionNotFound functionName], []⟩)
      ∧ (∀ interpreter module func, self.initialized = true →
          self.interpreter = some interpreter → self.module = some module →
          module.getFunction functionName = some func → func.isDeclaration = true →
          HotFix.executeFunction fp runFunction self functionName args argTypes numArgs
            returnType returnValue
            = .ok ⟨false, returnValue, self, [Diag.ExternalOnly functionName], []⟩) := by
  obtain ⟨module, interpreter, initialized⟩ := self
  refine ⟨?_, ?_, ?_⟩
  · rintro (h | h | h) <;> simp only at h <;> subst h
    · rfl
    · cases initialized <;> rfl
    · cases initialized <;> cases interpreter <;> rfl
  · intro i m hi hint hmod hget
    simp only at hi hint hmod
    subst hi hint hmod
    simp only [HotFix.executeFunction, hget]
  · intro i m func hi hint hmod hget hdecl
    simp only at hi hint hmod
    subst hi hint hmod
    simp only [HotFix.executeFunction, hget, hdecl, if_true]

/-- C5, at three calls with the return buffer holding 77: `bugfix` on a bridge that
never loaded a program, the unknown name `square` on the loaded example, and the
declaration `add` on the loaded example. -/
theorem executeFunction_rejects_witness :
    HotFix.executeFunction exampleFloatOps exampleRun HotFix.new "bugfix" exampleArgs
        (fun _ => ⟨TypeKind.INT32, 4, none⟩) 1 (some ⟨TypeKind.INT32, 4, none⟩) (some 77)
        = .ok ⟨false, some 77, HotFix.new, [Diag.NotInitialized], []⟩
      ∧ HotFix.executeFunction exampleFloatOps exampleRun exampleLoaded "square" exampleArgs
          (fun _ => ⟨TypeKind.INT32, 4, none⟩) 1 (some ⟨TypeKind.INT32, 4, none⟩) (some 77)
          = .ok ⟨false, some 77, exampleLoaded, [Diag.FunctionNotFound "square"], []⟩
      ∧ HotFix.executeFunction exampleFloatOps exampleRun exampleLoaded "add" exampleArgs
          (fun _ => ⟨TypeKind.INT32, 4, none⟩) 1 (some ⟨TypeKind.INT32, 4, none⟩) (some 77)
          = .ok ⟨false, some 77, exampleLoaded, [Diag.ExternalOnly "add"], []⟩ :=
  ⟨(executeFunction_rejects exampleFloatOps exampleRun HotFix.new "bugfix" exampleArgs
      (fun _ => ⟨TypeKind.INT32, 4, none⟩) 1 (some ⟨TypeKind.INT32, 4, none⟩) (some 77)).1
      (Or.inl rfl),
    (executeFunction_rejects exampleFloatOps exampleRun exampleLoaded "square" exampleArgs
      (fun _ => ⟨TypeKind.INT32, 4, none⟩) 1 (some ⟨TypeKind.INT32, 4, none⟩) (some 77)).2.1
      ⟨⟨"hotfix_ir", bugfixFunctions⟩, true, []⟩ ⟨"hotfix_ir", bugfixFunctions⟩
      (by rw [exampleLoaded_eq]) (by rw [exampleLoaded_eq]) (by rw [exampleLoaded_eq])
      (by simp [Module.getFunction, Module.getValueSymbolTable, Function.hasName, bugfixFunctions]),
    (executeFunction_rejects exampleFloatOps exampleRun exampleLoaded "add" exampleArgs
      (fun _ => ⟨TypeKind.INT32, 4, none⟩) 1 (some ⟨TypeKind.INT32, 4, none⟩) (some 77)).2.2
      ⟨⟨"hotfix_ir", bugfixFunctions⟩, true, []⟩ ⟨"hotfix_ir", bugfixFunctions⟩
      { getName := "add", isDeclaration := true,
        paramTypes := [IRType.IntegerTy 32, IRType.IntegerTy 32],
        returnType := IRType.IntegerTy 32 }
      (by rw [exampleLoaded_eq]) (by rw [exampleLoaded_eq]) (by rw [exampleLoaded_eq])
      (by simp [Module.getFunction, Module.getValueSymbolTable, Function.hasName, bugfixFunctions]) rfl⟩

/-! ## C6, C7: the load operations -/

theorem finishLoad_new_of_failure (module : Option Module)
    (h : (HotFix.finishLoad HotFix.new module).result = false) :
    (HotFix.finishLoad HotFix.new module).self = HotFix.new := by
  cases module with
  | none => rfl
  | some m => simp [HotFix.finishLoad] at h

/-- C6, as the code has it: on a bridge that never loaded a program, each of the
three load operations that returns failure leaves the state equal to that of a
never-loaded bridge; and on any bridge, also one already holding a program,
`loadBitcode` called with a null pointer or a zero size returns failure and leaves
the state exactly as it was. -/
theorem load_failure_state (fe : Frontend) :
    (∀ (bitcodeData : Option String) (bitcodeSize : Nat),
        (HotFix.loadBitcode fe HotFix.new bitcodeData bitcodeSize).result = false →
        (HotFix.loadBitcode fe HotFix.new bitcodeData bitcodeSize).self = HotFix.new)
      ∧ (∀ filename : String,
        (HotFix.loadBitcodeFromFile fe HotFix.new filename).result = false →
        (HotFix.loadBitcodeFromFile fe HotFix.new filename).self = HotFix.new)
      ∧ (∀ irString : String,
        (HotFix.loadBitcodeFromString fe HotFix.new irString).result = false →
        (HotFix.loadBitcodeFromString fe HotFix.new irString).self = HotFix.new)
      ∧ (∀ (self : HotFix) (bitcodeData : Option String) (bitcodeSize : Nat),
        bitcodeData = none ∨ bitcodeSize = 0 →
        HotFix.loadBitcode fe self bitcodeData bitcodeSize
          = ⟨false, self, [Diag.InvalidBitcodeData]⟩) := by
  refine ⟨?_, ?_, ?_, ?_⟩
  · intro bitcodeData bitcodeSize h
    cases bitcodeData with
    | none => rfl
    | some data =>
      by_cases hs : bitcodeSize = 0
      · simp [HotFix.loadBitcode, hs]
      · simp only [HotFix.loadBitcode, hs, if_false] at h ⊢
        exact finishLoad_new_of_failure _ h
  · intro filename h
    exact finishLoad_new_of_failure _ h
  · intro irString h
    exact finishLoad_new_of_failure _ h
  · intro self bitcodeData bitcodeSize h
    cases bitcodeData with
    | none => rfl
    | some data =>
      rcases h with h | h
      · cases h
      · simp [HotFix.loadBitcode, h]

/-- C6 as amended, at a text that does not parse, a file that cannot be read, and a
zero-size buffer offered to the loaded example bridge. -/
theorem load_failure_state_witness :
    (HotFix.loadBitcode exampleFrontend HotFix.new (some "define") 6).self = HotFix.new
      ∧ (HotFix.loadBitcodeFromFile exampleFrontend HotFix.new "fix.ll").self = HotFix.new
      ∧ (HotFix.loadBitcodeFromString exampleFrontend HotFix.new "define").self = HotFix.new
      ∧ HotFix.loadBitcode exampleFrontend exampleLoaded (some bugfixCode) 0
          = ⟨false, exampleLoaded, [Diag.InvalidBitcodeData]⟩ :=
  ⟨(load_failure_state exampleFrontend).1 (some "define") 6
      (by simp [HotFix.loadBitcode, HotFix.finishLoad, parseIR, exampleFrontend, bugfixCode]),
    (load_failure_state exampleFrontend).2.1 "fix.ll"
      (by simp [HotFix.loadBitcodeFromFile, HotFix.finishLoad, parseIRFile, exampleFrontend]),
    (load_failure_state exampleFrontend).2.2.1 "define"
      (by simp [HotFix.loadBitcodeFromString, HotFix.finishLoad, parseIR, exampleFrontend,
        bugfixCode]),
    (load_failure_state exampleFrontend).2.2.2 exampleLoaded (some bugfixCode) 0 (Or.inr rfl)⟩

/-- C6 as stated fails: on the bridge holding the loaded example, `loadBitcode` with
a null pointer returns failure, and the bridge afterwards is still initialized,
still holds its module and interpreter and still knows `bugfix`; a never-loaded
bridge has none of these. -/
theorem load_failure_keeps_loaded_program :
    (HotFix.loadBitcode exampleFrontend exampleLoaded none 0).result = false
      ∧ (HotFix.loadBitcode exampleFrontend exampleLoaded none 0).self.initialized = true
      ∧ (HotFix.loadBitcode exampleFrontend exampleLoaded none 0).self.module.isSome = true
      ∧ (HotFix.loadBitcode exampleFrontend exampleLoaded none 0).self.interpreter.isSome = true
      ∧ (HotFix.loadBitcode exampleFrontend exampleLoaded none 0).self.hasFunction "bugfix" = true
      ∧ HotFix.new.initialized = false ∧ HotFix.new.module.isSome = false
      ∧ HotFix.new.interpreter.isSome = false ∧ HotFix.new.hasFunction "bugfix" = false
      ∧ (HotFix.loadBitcode exampleFrontend exampleLoaded none 0).self ≠ HotFix.new := by
  have h : (HotFix.loadBitcode exampleFrontend exampleLoaded none 0).self = exampleLoaded := rfl
  rw [h, exampleLoaded_eq]
  refine ⟨rfl, rfl, rfl, rfl, ?_, rfl, rfl, rfl, rfl, ?_⟩
  · simp [HotFix.hasFunction, Module.getFunction, Module.getValueSymbolTable, Function.hasName,
      bugfixFunctions]
  · intro hne
    have := congrArg HotFix.initialized hne
    simp [HotFix.new] at this

/-- What the code does at the case C6 as amended leaves out: a text that does not
parse, offered to a bridge that holds a program, resets the module only; the
interpreter built for the previous module and the `initialized` flag stay. -/
theorem parse_failure_keeps_interpreter (fe : Frontend) (self : HotFix) (irString : String)
    (h : fe.parse irString = none) :
    HotFix.loadBitcodeFromString fe self irString
      = ⟨false, ⟨none, self.interpreter, self.initialized⟩, [Diag.ParseError]⟩ := by
  simp [HotFix.loadBitcodeFromString, HotFix.finishLoad, parseIR, h]

theorem take_length_text (text : String) : (⟨text.data.take text.length⟩ : String) = text := by
  have h : text.length = text.data.length := rfl
  rw [h, List.take_length]

theorem finishLoad_equivalent (self : HotFix) (fs : Option (List Function)) (n1 n2 : String) :
    (HotFix.finishLoad self (fs.map (fun l => (⟨n1, l⟩ : Module)))).result
        = (HotFix.finishLoad self (fs.map (fun l => (⟨n2, l⟩ : Module)))).result
      ∧ (HotFix.finishLoad self (fs.map (fun l => (⟨n1, l⟩ : Module)))).errs
        = (HotFix.finishLoad self (fs.map (fun l => (⟨n2, l⟩ : Module)))).errs
      ∧ HotFix.equivalent (HotFix.finishLoad self (fs.map (fun l => (⟨n1, l⟩ : Module)))).self
          (HotFix.finishLoad self (fs.map (fun l => (⟨n2, l⟩ : Module)))).self := by
  cases fs with
  | none => exact ⟨rfl, rfl, rfl, rfl, rfl⟩
  | some l => exact ⟨rfl, rfl, rfl, rfl, rfl⟩

/-- C7, as the code has it: for every non-empty text, `loadBitcode` on the buffer
holding it and `loadBitcodeFromString` on the same text, from the same bridge state,
return the same flag, write the same diagnostics and leave equivalent states; when
they succeed each state holds the parsed functions (under the module identifiers
`hotfix_bitcode` and `hotfix_ir`), a fresh interpreter with globals evaluated and
an empty external-call table, and `initialized = true`. For the empty text
`loadBitcode` does not parse: it returns failure with `InvalidBitcodeData` and
leaves the state as it was. -/
theorem loadBitcode_agrees_with_loadBitcodeFromString (fe : Frontend) (self : HotFix)
    (text : String) :
    (text.length ≠ 0 →
        (HotFix.loadBitcode fe self (some text) text.length).result
            = (HotFix.loadBitcodeFromString fe self text).result
          ∧ (HotFix.loadBitcode fe self (some text) text.length).errs
            = (HotFix.loadBitcodeFromString fe self text).errs
          ∧ HotFix.equivalent (HotFix.loadBitcode fe self (some text) text.length).self
              (HotFix.loadBitcodeFromString fe self text).self
          ∧ ((HotFix.loadBitcodeFromString fe self text).result = true →
              ∃ fs, fe.parse text = some fs
                ∧ (HotFix.loadBitcode fe self (some text) text.length).self
                  = ⟨some ⟨"hotfix_bitcode", fs⟩, some ⟨⟨"hotfix_bitcode", fs⟩, true, []⟩, true⟩
                ∧ (HotFix.loadBitcodeFromString fe self text).self
                  = ⟨some ⟨"hotfix_ir", fs⟩, some ⟨⟨"hotfix_ir", fs⟩, true, []⟩, true⟩))
      ∧ (text.length = 0 →
          HotFix.loadBitcode fe self (some text) text.length
            = ⟨false, self, [Diag.InvalidBitcodeData]⟩) := by
  constructor
  · intro hlen
    have hb : HotFix.loadBitcode fe self (some text) text.length
        = HotFix.finishLoad self (parseIR fe text "hotfix_bitcode") := by
      simp only [HotFix.loadBitcode, hlen, if_false, take_length_text]
    have hs : HotFix.loadBitcodeFromString fe self text
        = HotFix.finishLoad self (parseIR fe text "hotfix_ir") := rfl
    rw [hb, hs]
    unfold parseIR
    obtain ⟨h1, h2, h3⟩ := finishLoad_equivalent self (fe.parse text) "hotfix_bitcode" "hotfix_ir"
    refine ⟨h1, h2, h3, ?_⟩
    intro hres
    cases hp : fe.parse text with
    | none => rw [hp] at hres; simp [HotFix.finishLoad] at hres
    | some fs => exact ⟨fs, rfl, rfl, rfl⟩
  · intro hlen
    simp [HotFix.loadBitcode, hlen]

/-- C7 as amended, at the text of the example program and at the empty text. -/
theorem loadBitcode_agrees_with_loadBitcodeFromString_witness :
    ((HotFix.loadBitcode exampleFrontend HotFix.new (some bugfixCode) bugfixCode.length).result
            = (HotFix.loadBitcodeFromString exampleFrontend HotFix.new bugfixCode).result
          ∧ (HotFix.loadBitcode exampleFrontend HotFix.new (some bugfixCode) bugfixCode.length).errs
            = (HotFix.loadBitcodeFromString exampleFrontend HotFix.new bugfixCode).errs
          ∧ HotFix.equivalent
              (HotFix.loadBitcode exampleFrontend HotFix.new (some bugfixCode)
                bugfixCode.length).self
              (HotFix.loadBitcodeFromString exampleFrontend HotFix.new bugfixCode).self
          ∧ ((HotFix.loadBitcodeFromString exampleFrontend HotFix.new bugfixCode).result = true →
              ∃ fs, exampleFrontend.parse bugfixCode = some fs
                ∧ (HotFix.loadBitcode exampleFrontend HotFix.new (some bugfixCode)
                    bugfixCode.length).self
                  = ⟨some ⟨"hotfix_bitcode", fs⟩, some ⟨⟨"hotfix_bitcode", fs⟩, true, []⟩, true⟩
                ∧ (HotFix.loadBitcodeFromString exampleFrontend HotFix.new bugfixCode).self
                  = ⟨some ⟨"hotfix_ir", fs⟩, some ⟨⟨"hotfix_ir", fs⟩, true, []⟩, true⟩))
      ∧ HotFix.loadBitcode exampleFrontend exampleLoaded (some "") "".length
          = ⟨false, exampleLoaded, [Diag.InvalidBitcodeData]⟩ :=
  ⟨(loadBitcode_agrees_with_loadBitcodeFromString exampleFrontend HotFix.new bugfixCode).1
      (by decide),
    (loadBitcode_agrees_with_loadBitcodeFromString exampleFrontend exampleLoaded "").2 rfl⟩

/-- C7 as stated fails at the empty buffer: `loadBitcode` rejects a zero size
without parsing and leaves the bridge never-loaded, while `loadBitcodeFromString`
parses the empty text, which is the empty program, and succeeds. -/
theorem load_empty_buffer_disagrees :
    HotFix.loadBitcode exampleFrontend HotFix.new (some "") 0
        = ⟨false, HotFix.new, [Diag.InvalidBitcodeData]⟩
      ∧ HotFix.loadBitcodeFromString exampleFrontend HotFix.new ""
        = ⟨true, ⟨some ⟨"hotfix_ir", []⟩, some ⟨⟨"hotfix_ir", []⟩, true, []⟩, true⟩, []⟩
      ∧ (HotFix.loadBitcode exampleFrontend HotFix.new (some "") 0).result
        ≠ (HotFix.loadBitcodeFromString exampleFrontend HotFix.new "").result := by
  refine ⟨rfl, ?_, ?_⟩
  · simp [HotFix.loadBitcodeFromString, HotFix.finishLoad, parseIR, exampleFrontend,
      Interpreter.new, Interpreter.evaluateGlobals]
  · simp [HotFix.loadBitcode, HotFix.loadBitcodeFromString, HotFix.finishLoad, parseIR,
      exampleFrontend]

/-- The disagreement at the empty buffer holds for every reader that accepts the
empty text, from every bridge state. -/
theorem load_empty_buffer_disagrees_of_accepting (fe : Frontend) (self : HotFix)
    (fs : List Function) (h : fe.parse "" = some fs) :
    (HotFix.loadBitcode fe self (some "") 0).result = false
      ∧ (HotFix.loadBitcodeFromString fe self "").result = true := by
  simp [HotFix.loadBitcode, HotFix.loadBitcodeFromString, HotFix.finishLoad, parseIR, h]

/-! ## C8: `getFunctionNames` -/

theorem collectNames_eq (fs : List Function) (names : List String) :
    HotFix.collectNames fs names
      = names ++ (fs.filter (fun f => !f.isDeclaration)).map (fun f => f.getName) := by
  induction fs generalizing names with
  | nil => simp [HotFix.collectNames]
  | cons f rest ih =>
    cases hd : f.isDeclaration <;> simp [HotFix.collectNames, hd, ih]

/-- C8: without a module `getFunctionNames` returns the empty sequence; with a
module it returns the names of the functions that have a body, one entry per such
function and in module order: a name is returned exactly when a function with a
body has it, the result is a subsequence of the module's names, and, names being
unique within a module, no name is returned twice and no name of a declaration is
returned. -/
theorem getFunctionNames_defined_in_order (self : HotFix) :
    (self.module = none → self.getFunctionNames = [])
      ∧ (∀ module, self.module = some module →
          self.getFunctionNames
              = (module.functions.filter (fun f => !f.isDeclaration)).map (fun f => f.getName)
            ∧ (∀ name, name ∈ self.getFunctionNames
                ↔ ∃ f ∈ module.functions, f.getName = name ∧ f.isDeclaration = false)
            ∧ List.Sublist self.getFunctionNames (module.functions.map (fun f => f.getName))
            ∧ ((module.functions.map (fun f => f.getName)).Nodup →
                self.getFunctionNames.Nodup
                  ∧ ∀ f ∈ module.functions, f.isDeclaration = true →
                      f.getName ∉ self.getFunctionNames)) := by
  constructor
  · intro h
    simp [HotFix.getFunctionNames, h]
  · intro module h
    have heq : self.getFunctionNames
        = (module.functions.filter (fun f => !f.isDeclaration)).map (fun f => f.getName) := by
      simp [HotFix.getFunctionNames, h, collectNames_eq]
    have hsub : List.Sublist self.getFunctionNames
        (module.functions.map (fun f => f.getName)) := by
      rw [heq]
      exact List.Sublist.map _ (List.filter_sublist _)
    have hmem : ∀ name, name ∈ self.getFunctionNames
        ↔ ∃ f ∈ module.functions, f.getName = name ∧ f.isDeclaration = false := by
      intro name
      rw [heq]
      simp only [List.mem_map, List.mem_filter, Bool.not_eq_true']
      constructor
      · rintro ⟨f, ⟨hf, hd⟩, hn⟩
        exact ⟨f, hf, hn, hd⟩
      · rintro ⟨f, hf, hn, hd⟩
        exact ⟨f, ⟨hf, hd⟩, hn⟩
    refine ⟨heq, hmem, hsub, ?_⟩
    intro hnodup
    refine ⟨hnodup.sublist hsub, ?_⟩
    intro f hf hdecl hin
    obtain ⟨g, hg, hname, hgdef⟩ := (hmem f.getName).1 hin
    have hfg : g = f := List.inj_on_of_nodup_map hnodup hg hf hname
    rw [hfg, hdecl] at hgdef
    exact Bool.noConfusion hgdef

/-- C8, at the never-loaded bridge and at the loaded example, whose module declares
`add` and defines `bugfix`. -/
theorem getFunctionNames_defined_in_order_witness :
    HotFix.new.getFunctionNames = []
      ∧ exampleLoaded.getFunctionNames = ["bugfix"]
      ∧ exampleLoaded.getFunctionNames.Nodup
      ∧ "add" ∉ exampleLoaded.getFunctionNames := by
  have h := (getFunctionNames_defined_in_order exampleLoaded).2 ⟨"hotfix_ir", bugfixFunctions⟩
    (by rw [exampleLoaded_eq])
  have hn := h.2.2.2 (by decide)
  refine ⟨(getFunctionNames_defined_in_order HotFix.new).1 rfl, ?_, hn.1, ?_⟩
  · rw [h.1]; rfl
  · exact hn.2 _ (List.mem_cons_self _ _) rfl

/-! ## C9: STRUCT descriptors -/

theorem executeFunction_defined (fp : FloatOps) (runFunction : RunFunction)
    (module : Module) (interpreter : Interpreter) (functionName : String) (func : Function)
    (args : Nat → Option HostMem) (argTypes : Nat → TypeInfo) (numArgs : Nat)
    (returnType : Option TypeInfo) (returnValue : Option HostMem)
    (hget : module.getFunction functionName = some func) (hdef : func.isDeclaration = false) :
    HotFix.executeFunction fp runFunction ⟨some module, some interpreter, true⟩ functionName args
        argTypes numArgs returnType returnValue
      = (do
          let (retVal, interpreter') ←
            runFunction interpreter func (HotFix.convertArguments fp args argTypes numArgs)
          let returnValue' ←
            match returnType, returnValue with
            | some rt, some out => convertFromDynamicValue fp retVal (some out) rt
            | _, _ => pure returnValue
          pure ⟨true, returnValue', ⟨some module, some interpreter', true⟩, [],
            [(func, HotFix.convertArguments fp args argTypes numArgs)]⟩) := by
  simp only [HotFix.executeFunction, hget, hdef, Bool.false_eq_true, if_false]

theorem convertFrom_struct (fp : FloatOps) (dv : DynamicValue) (output : Option HostMem)
    (size : Nat) (name : Option String) :
    convertFromDynamicValue fp dv output ⟨TypeKind.STRUCT, size, name⟩ = .ok output := by
  cases output with
  | none => rfl
  | some out =>
    simp only [convertFromDynamicValue]
    split <;> rfl

/-- C9, as the code has it: a STRUCT descriptor raises no signal. The conversion to
a Dynamic Value returns a placeholder Struct of the declared size (Undefined for
size 0) and the conversion to the host leaves the output buffer as it was, each
without a diagnostic or a fault. On a loaded bridge and a function with a body,
whenever `executeFunction` returns, whatever the kinds of the descriptors, it
returns true and writes no diagnostic; and with a STRUCT return descriptor it
returns as soon as `runFunction` does, with the return buffer unchanged. -/
theorem struct_descriptor_plain_success (fp : FloatOps) (runFunction : RunFunction)
    (module : Module) (interpreter : Interpreter) (functionName : String) (func : Function)
    (args : Nat → Option HostMem) (argTypes : Nat → TypeInfo) (numArgs : Nat)
    (returnValue : Option HostMem)
    (hget : module.getFunction functionName = some func) (hdef : func.isDeclaration = false) :
    (∀ (p : HostMem) (size : Nat) (name : Option String),
        convertToDynamicValue fp (some p) ⟨TypeKind.STRUCT, size, name⟩
          = if size = 0 then DynamicValue.Undefined else DynamicValue.getStructValue size)
      ∧ (∀ (dv : DynamicValue) (output : Option HostMem) (size : Nat) (name : Option String),
        convertFromDynamicValue fp dv output ⟨TypeKind.STRUCT, size, name⟩ = .ok output)
      ∧ (∀ (returnType : Option TypeInfo) (r : ExecResult),
        HotFix.executeFunction fp runFunction ⟨some module, some interpreter, true⟩ functionName
            args argTypes numArgs returnType returnValue = .ok r →
          r.result = true ∧ r.errs = [])
      ∧ (∀ (size : Nat) (name : Option String) (retVal : DynamicValue)
          (interpreter' : Interpreter),
        runFunction interpreter func (HotFix.convertArguments fp args argTypes numArgs)
            = .ok (retVal, interpreter') →
          HotFix.executeFunction fp runFunction ⟨some module, some interpreter, true⟩
              functionName args argTypes numArgs (some ⟨TypeKind.STRUCT, size, name⟩) returnValue
            = .ok ⟨true, returnValue, ⟨some module, some interpreter', true⟩, [],
                [(func, HotFix.convertArguments fp args argTypes numArgs)]⟩) := by
  refine ⟨?_, convertFrom_struct fp, ?_, ?_⟩
  · intro p size name
    simp only [convertToDynamicValue, DynamicValue.getUndefValue]
  · intro returnType r h
    rw [executeFunction_defined fp runFunction module interpreter functionName func args argTypes
      numArgs returnType returnValue hget hdef] at h
    cases hrun : runFunction interpreter func (HotFix.convertArguments fp args argTypes numArgs)
      with
    | error e => rw [hrun] at h; cases h
    | ok pr =>
      obtain ⟨retVal, interpreter'⟩ := pr
      rw [hrun] at h
      simp only [bind, Except.bind, pure, Except.pure] at h
      split at h
      · split at h
        · cases h
        · simp only [Except.ok.injEq] at h
          subst h
          exact ⟨rfl, rfl⟩
      · simp only [Except.ok.injEq] at h
        subst h
        exact ⟨rfl, rfl⟩
  · intro size name retVal interpreter' hrun
    rw [executeFunction_defined fp runFunction module interpreter functionName func args argTypes
      numArgs _ returnValue hget hdef, hrun]
    cases returnValue with
    | none => rfl
    | some out =>
      simp only [bind, Except.bind, convertFrom_struct, pure, Except.pure]

/-- C9 as amended, at `bugfix` on the loaded example, called with a STRUCT argument
descriptor and a STRUCT return descriptor, the return buffer holding 77. -/
theorem struct_descriptor_plain_success_witness :
    HotFix.executeFunction exampleFloatOps exampleRun
        ⟨some ⟨"hotfix_ir", bugfixFunctions⟩, some ⟨⟨"hotfix_ir", bugfixFunctions⟩, true, []⟩, true⟩
        "bugfix" exampleArgs (fun _ => ⟨TypeKind.STRUCT, 8, some "Pair"⟩) 1
        (some ⟨TypeKind.STRUCT, 8, some "Pair"⟩) (some 77)
      = .ok ⟨true, some 77,
          ⟨some ⟨"hotfix_ir", bugfixFunctions⟩, some ⟨⟨"hotfix_ir", bugfixFunctions⟩, true, []⟩,
            true⟩, [],
          [({ getName := "bugfix", isDeclaration := false, paramTypes := [IRType.IntegerTy 32],
              returnType := IRType.IntegerTy 32 },
            HotFix.convertArguments exampleFloatOps exampleArgs
              (fun _ => ⟨TypeKind.STRUCT, 8, some "Pair"⟩) 1)]⟩ :=
  (struct_descriptor_plain_success exampleFloatOps exampleRun ⟨"hotfix_ir", bugfixFunctions⟩
    ⟨⟨"hotfix_ir", bugfixFunctions⟩, true, []⟩ "bugfix"
    { getName := "bugfix", isDeclaration := false, paramTypes := [IRType.IntegerTy 32],
      returnType := IRType.IntegerTy 32 }
    exampleArgs (fun _ => ⟨TypeKind.STRUCT, 8, some "Pair"⟩) 1 (some 77)
    (by simp [Module.getFunction, Module.getValueSymbolTable, Function.hasName, bugfixFunctions]) rfl).2.2.2 8 (some "Pair")
    (DynamicValue.Integer ⟨32, 11⟩) ⟨⟨"hotfix_ir", bugfixFunctions⟩, true, []⟩ rfl

/-- C9 as stated fails: on the loaded example, with the return buffer holding 11
before the call, `bugfix` called with STRUCT descriptors for its argument and its
return value reports true, no diagnostic and the buffer at 11; the call with INT32
descriptors reports exactly the same. The two conversions under a STRUCT descriptor
return a placeholder and the unchanged buffer, with nothing else. -/
theorem struct_invocation_indistinguishable :
    (HotFix.executeFunction exampleFloatOps exampleRun exampleLoaded "bugfix" exampleArgs
        (fun _ => ⟨TypeKind.STRUCT, 8, some "Pair"⟩) 1 (some ⟨TypeKind.STRUCT, 8, some "Pair"⟩)
        (some 11)).map (fun r => (r.result, r.errs, r.returnValue)) = .ok (true, [], some 11)
      ∧ (HotFix.executeFunction exampleFloatOps exampleRun exampleLoaded "bugfix" exampleArgs
        (fun _ => ⟨TypeKind.INT32, 4, none⟩) 1 (some ⟨TypeKind.INT32, 4, none⟩)
        (some 11)).map (fun r => (r.result, r.errs, r.returnValue)) = .ok (true, [], some 11)
      ∧ convertToDynamicValue exampleFloatOps (some 10) ⟨TypeKind.STRUCT, 8, some "Pair"⟩
        = DynamicValue.Struct (List.replicate 8 DynamicValue.Undefined)
      ∧ convertFromDynamicValue exampleFloatOps (DynamicValue.Integer ⟨32, 11⟩) (some 77)
          ⟨TypeKind.STRUCT, 8, some "Pair"⟩ = .ok (some 77) := by
  have hget : (⟨"hotfix_ir", bugfixFunctions⟩ : Module).getFunction "bugfix"
      = some { getName := "bugfix", isDeclaration := false,
               paramTypes := [IRType.IntegerTy 32], returnType := IRType.IntegerTy 32 } := by
    simp [Module.getFunction, Module.getValueSymbolTable, Function.hasName, bugfixFunctions]
  refine ⟨?_, ?_, rfl, rfl⟩
  · rw [exampleLoaded_eq, executeFunction_defined _ _ _ _ _ _ _ _ _ _ _ hget rfl]
    rfl
  · rw [exampleLoaded_eq, executeFunction_defined _ _ _ _ _ _ _ _ _ _ _ hget rfl]
    rfl

/-! ## C10: registration of external functions -/

theorem lookup_register_same (i : Interpreter) (name : String) (callback : ExternalCallback) :
    (i.registerExternalFunction name callback).lookupExternalFunction name = some callback := by
  simp [Interpreter.registerExternalFunction, Interpreter.lookupExternalFunction]

theorem lookup_register_other (i : Interpreter) (name other : String)
    (callback : ExternalCallback) (h : other ≠ name) :
    (i.registerExternalFunction other callback).lookupExternalFunction name
      = i.lookupExternalFunction name := by
  have hne : (other == name) = false := by simpa using h
  simp only [Interpreter.registerExternalFunction, Interpreter.lookupExternalFunction,
    List.find?_cons, hne]
  congr 1
  induction i.externalFunctions with
  | nil => rfl
  | cons e rest ih =>
    by_cases he : e.1 = name
    · have h1 : (e.1 != other) = true := by
        simp only [bne_iff_ne, ne_eq, he]
        exact fun hc => h hc.symm
      have h2 : (e.1 == name) = true := by simpa using he
      simp only [List.filter_cons, h1, if_true, List.find?_cons, h2]
    · have h2 : (e.1 == name) = false := by simpa using he
      by_cases ho : (e.1 != other) = true
      · simp only [List.filter_cons, ho, if_true, List.find?_cons, h2, ih]
      · have ho' : (e.1 != other) = false := by simpa using ho
        simp only [List.filter_cons, ho', Bool.false_eq_true, if_false, List.find?_cons, h2, ih]

theorem lookup_unregister_same (i : Interpreter) (name : String) :
    (i.unregisterExternalFunction name).lookupExternalFunction name = none := by
  simp only [Interpreter.unregisterExternalFunction, Interpreter.lookupExternalFunction,
    Option.map_eq_none', List.find?_eq_none, List.mem_filter]
  rintro e ⟨_, he⟩
  simpa using he

/-- C10, as the code has it: on a bridge that holds no interpreter (no program was
loaded) `registerExternalFunction` only writes `NotInitialized` and registers
nothing. On a bridge that holds an interpreter it writes nothing and, from then on,
the external-call table of that interpreter maps the name to the callback: also
after other names are registered, until the name is registered again (the new
callback replaces it), is unregistered, or a later successful load installs a fresh
interpreter, whose table is empty. -/
theorem registerExternalFunction_effect (self : HotFix) (name : String)
    (callback : ExternalCallback) :
    (self.interpreter = none →
        self.registerExternalFunction name callback = (self, [Diag.NotInitialized]))
      ∧ (∀ interpreter, self.interpreter = some interpreter →
          (self.registerExternalFunction name callback).2 = []
            ∧ (self.registerExternalFunction name callback).1.externalCallback name
                = some callback
            ∧ (∀ (other : String) (callback' : ExternalCallback), other ≠ name →
                ((self.registerExternalFunction name callback).1.registerExternalFunction other
                  callback').1.externalCallback name = some callback)
            ∧ (∀ callback' : ExternalCallback,
                ((self.registerExternalFunction name callback).1.registerExternalFunction name
                  callback').1.externalCallback name = some callback')
            ∧ ((self.registerExternalFunction name callback).1.unregisterExternalFunction
                  name).externalCallback name = none
            ∧ (∀ (fe : Frontend) (irString : String),
                (HotFix.loadBitcodeFromString fe (self.registerExternalFunction name callback).1
                    irString).result = true →
                (HotFix.loadBitcodeFromString fe (self.registerExternalFunction name callback).1
                    irString).self.externalCallback name = none)) := by
  constructor
  · intro h
    simp only [HotFix.registerExternalFunction, h]
  · intro i h
    have hreg : self.registerExternalFunction name callback
        = ({ self with interpreter := some (i.registerExternalFunction name callback) }, []) := by
      simp only [HotFix.registerExternalFunction, h]
    rw [hreg]
    refine ⟨rfl, ?_, ?_, ?_, ?_, ?_⟩
    · simp only [HotFix.externalCallback, lookup_register_same]
    · intro other callback' hne
      simp only [HotFix.registerExternalFunction, HotFix.externalCallback,
        lookup_register_other _ _ _ _ hne, lookup_register_same]
    · intro callback'
      simp only [HotFix.registerExternalFunction, HotFix.externalCallback, lookup_register_same]
    · simp only [HotFix.unregisterExternalFunction, HotFix.externalCallback,
        lookup_unregister_same]
    · intro fe irString hres
      cases hp : parseIR fe irString "hotfix_ir" with
      | none => simp [HotFix.loadBitcodeFromString, HotFix.finishLoad, hp] at hres
      | some m =>
        simp [HotFix.loadBitcodeFromString, HotFix.finishLoad, hp, HotFix.externalCallback,
          Interpreter.lookupExternalFunction, Interpreter.new, Interpreter.evaluateGlobals]

/-- C10 as amended, at the registration of `add` on the loaded example and on the
never-loaded bridge. -/
theorem registerExternalFunction_effect_witness :
    HotFix.new.registerExternalFunction "add" exampleCallback
        = (HotFix.new, [Diag.NotInitialized])
      ∧ (exampleLoaded.registerExternalFunction "add" exampleCallback).2 = []
      ∧ (exampleLoaded.registerExternalFunction "add" exampleCallback).1.externalCallback "add"
          = some exampleCallback :=
  ⟨(registerExternalFunction_effect HotFix.new "add" exampleCallback).1 rfl,
    ((registerExternalFunction_effect exampleLoaded "add" exampleCallback).2
      ⟨⟨"hotfix_ir", bugfixFunctions⟩, true, []⟩ (by rw [exampleLoaded_eq])).1,
    ((registerExternalFunction_effect exampleLoaded "add" exampleCallback).2
      ⟨⟨"hotfix_ir", bugfixFunctions⟩, true, []⟩ (by rw [exampleLoaded_eq])).2.1⟩

/-- C10 as stated fails on a bridge that has not loaded a program yet: registering
`add` there changes nothing, so no table maps `add`, neither at once nor after the
example program is loaded afterwards. -/
theorem register_before_load_is_dropped :
    HotFix.new.registerExternalFunction "add" exampleCallback
        = (HotFix.new, [Diag.NotInitialized])
      ∧ (HotFix.new.registerExternalFunction "add" exampleCallback).1.externalCallback "add"
          = none
      ∧ (HotFix.loadBitcodeFromString exampleFrontend
            (HotFix.new.registerExternalFunction "add" exampleCallback).1 bugfixCode).result
          = true
      ∧ (HotFix.loadBitcodeFromString exampleFrontend
            (HotFix.new.registerExternalFunction "add" exampleCallback).1
            bugfixCode).self.externalCallback "add" = none := by
  have h : (HotFix.new.registerExternalFunction "add" exampleCallback).1 = HotFix.new := rfl
  rw [h]
  have hl : HotFix.loadBitcodeFromString exampleFrontend HotFix.new bugfixCode
      = ⟨true, exampleLoaded, []⟩ := by
    rw [exampleLoaded_eq]
    simp [HotFix.loadBitcodeFromString, HotFix.finishLoad, parseIR, exampleFrontend,
      bugfixCode, Interpreter.new, Interpreter.evaluateGlobals]
  rw [hl, exampleLoaded_eq]
  exact ⟨rfl, rfl, rfl, rfl⟩

/-! ## C11, C12: the command-line driver -/

theorem convertLoop_unsupported (stod : Stod) (pre : List IRType) :
    ∀ (texts : List String) (bad : IRType) (rest : List IRType) (text : String)
      (more : List String) (args : List DynamicValue) (argIdx : Nat),
      pre.length = texts.length → Driver.supported bad = false →
      (∀ x ∈ List.zipWith (Driver.convertedArgument stod) pre texts, x.isSome = true) →
      Driver.convertLoop stod (pre ++ bad :: rest) (texts ++ text :: more) args argIdx
        = .ok LoopResult.Unsupported := by
  induction pre with
  | nil =>
    intro texts bad rest text more args argIdx hlen hbad _
    cases texts with
    | cons t ts => simp at hlen
    | nil =>
      cases bad <;> simp [Driver.supported] at hbad <;> simp [Driver.convertLoop]
  | cons paramType pre ih =>
    intro texts bad rest text more args argIdx hlen hbad h
    cases texts with
    | nil => simp at hlen
    | cons t ts =>
      have hlen' : pre.length = ts.length := by simpa using hlen
      have hhead : (Driver.convertedArgument stod paramType t).isSome = true :=
        h _ (by simp [List.zipWith])
      have htail : ∀ x ∈ List.zipWith (Driver.convertedArgument stod) pre ts,
          x.isSome = true := fun x hx => h x (by simp [List.zipWith, hx])
      cases paramType with
      | IntegerTy w =>
        cases hs : stoi t with
        | error e => simp [Driver.convertedArgument, hs] at hhead
        | ok v =>
          simp only [List.cons_append, Driver.convertLoop, hs]
          exact ih ts bad rest text more _ _ hlen' hbad htail
      | FloatTy =>
        cases hs : stod t with
        | error e => simp [Driver.convertedArgument, hs] at hhead
        | ok d =>
          simp only [List.cons_append, Driver.convertLoop, hs]
          exact ih ts bad rest text more _ _ hlen' hbad htail
      | DoubleTy =>
        cases hs : stod t with
        | error e => simp [Driver.convertedArgument, hs] at hhead
        | ok d =>
          simp only [List.cons_append, Driver.convertLoop, hs]
          exact ih ts bad rest text more _ _ hlen' hbad htail
      | VoidTy => simp [Driver.convertedArgument] at hhead
      | PointerTy => simp [Driver.convertedArgument] at hhead
      | StructTy => simp [Driver.convertedArgument] at hhead
      | OtherTy => simp [Driver.convertedArgument] at hhead

/-- C11, as the code has it: for an entry function other than `main`, when the
first parameter that is neither integer nor float nor double (after a skipped
leading `sret` pointer parameter) is paired with a textual argument and the texts
before it are converted, the driver writes "Unsupported parameter type", returns -1
and makes no call into the interpreter. The `main` entry is handed to `runMain`
with the textual arguments, whatever its parameters are. -/
theorem driver_rejects_reached_unsupported_parameter (fe : Frontend) (stod : Stod)
    (runMain : RunMain) (runFunction : RunFunction) (InputFile FunctionName : String)
    (module : Module) (entryFn : Function)
    (hparse : parseIRFile fe InputFile = some module)
    (hget : module.getFunction FunctionName = some entryFn) :
    (FunctionName ≠ "main" →
        ∀ (pre : List IRType) (bad : IRType) (rest : List IRType) (texts : List String)
          (text : String) (more : List String),
          entryFn.paramTypes.drop (Driver.paramStart entryFn) = pre ++ bad :: rest →
          pre.length = texts.length → Driver.supported bad = false →
          (∀ x ∈ List.zipWith (Driver.convertedArgument stod) pre texts, x.isSome = true) →
          Driver.main fe stod runMain runFunction InputFile FunctionName (texts ++ text :: more)
            = .ok ⟨-1,
                (if Driver.paramStart entryFn = 1 then [DriverDiag.StructReturnNote] else [])
                  ++ [DriverDiag.UnsupportedParameterType FunctionName],
                []⟩)
      ∧ (FunctionName = "main" →
          ∀ InputArgv : List String,
            Driver.main fe stod runMain runFunction InputFile FunctionName InputArgv
              = match runMain (Interpreter.new module).evaluateGlobals entryFn
                    (InputFile :: InputArgv) with
                | .error f => .error (Abort.Fault f)
                | .ok (retInt, _) =>
                  .ok ⟨0, [DriverDiag.MainReturns retInt],
                    [DriverCall.runMain entryFn (InputFile :: InputArgv)]⟩) := by
  constructor
  · intro hname pre bad rest texts text more hparams hlen hbad hconv
    have hloop := convertLoop_unsupported stod pre texts bad rest text more [] 0 hlen hbad hconv
    simp only [Driver.main, hparse, hget, hname, if_false, hparams, hloop]
  · intro hname InputArgv
    subst hname
    simp only [Driver.main, hparse, hget, if_true]

/-- C11 as amended, at `fill(i32, ptr)` called with the texts 5 and 7: the second
text reaches the pointer parameter. -/
theorem driver_rejects_reached_unsupported_parameter_witness :
    Driver.main driverFrontend exampleStod exampleRunMain exampleRun "driver.ll" "fill"
        (["5"] ++ "7" :: [])
      = .ok ⟨-1,
          (if Driver.paramStart fillFn = 1 then [DriverDiag.StructReturnNote] else [])
            ++ [DriverDiag.UnsupportedParameterType "fill"],
          []⟩ :=
  (driver_rejects_reached_unsupported_parameter driverFrontend exampleStod exampleRunMain
    exampleRun "driver.ll" "fill" ⟨"driver.ll", driverFunctions⟩ fillFn rfl rfl).1 (by decide)
    [IRType.IntegerTy 32] IRType.PointerTy [] ["5"] "7" [] rfl rfl rfl
    (by
      intro x hx
      have hz : List.zipWith (Driver.convertedArgument exampleStod) [IRType.IntegerTy 32] ["5"]
          = [some (DynamicValue.Integer ⟨32, 5⟩)] := rfl
      rw [hz] at hx
      simp only [List.mem_singleton] at hx
      rw [hx]
      rfl)

/-- C11 as stated fails: `fill(i32, ptr)` has a pointer parameter, yet with the
single text 5 the loop ends before it reaches that parameter; the driver calls
`runFunction` with the one converted argument and exits with status 0. With no
text at all it calls `runFunction` with no argument. -/
theorem driver_runs_function_with_pointer_parameter :
    fillFn.paramTypes = [IRType.IntegerTy 32, IRType.PointerTy]
      ∧ Driver.supported IRType.PointerTy = false
      ∧ Driver.main driverFrontend exampleStod exampleRunMain exampleRun "driver.ll" "fill" ["5"]
        = .ok ⟨0, [DriverDiag.Returns (DynamicValue.Integer ⟨32, 11⟩)],
            [DriverCall.runFunction fillFn [DynamicValue.Integer ⟨32, 5⟩]]⟩
      ∧ Driver.main driverFrontend exampleStod exampleRunMain exampleRun "driver.ll" "fill" []
        = .ok ⟨0, [DriverDiag.Returns (DynamicValue.Integer ⟨32, 11⟩)],
            [DriverCall.runFunction fillFn []]⟩ :=
  ⟨rfl, rfl, rfl, rfl⟩

theorem getFunction_eq_some (module : Module) (name : String) (f : Function)
    (h : module.getFunction name = some f) :
    f ∈ module.functions ∧ f.getName = name ∧ f.getName ≠ "" := by
  unfold Module.getFunction Module.getValueSymbolTable at h
  have hmem := List.mem_of_find?_eq_some h
  have hname := List.find?_some h
  simp only [List.mem_filter, Function.hasName, bne_iff_ne, ne_eq] at hmem
  exact ⟨hmem.1, by simpa using hname, hmem.2⟩

theorem getFunction_isSome_iff (module : Module) (name : String) :
    (module.getFunction name).isSome = true
      ↔ name ≠ "" ∧ ∃ f ∈ module.functions, f.getName = name := by
  unfold Module.getFunction Module.getValueSymbolTable
  rw [List.find?_isSome]
  simp only [List.mem_filter, Function.hasName, bne_iff_ne, ne_eq, beq_iff_eq]
  constructor
  · rintro ⟨f, ⟨hf, hne⟩, hn⟩
    exact ⟨fun h => hne (hn.trans h), f, hf, hn⟩
  · rintro ⟨hne, f, hf, hn⟩
    exact ⟨f, ⟨hf, fun h => hne (hn.symm.trans h)⟩, hn⟩

/-- C14, as the code has it: `hasFunction(name)` is true exactly when a module is
held and its symbol table has a function of that name, that is, when the name is
not empty and one of the functions, with or without a body, has it. Hence every
non-empty name returned by `getFunctionNames` satisfies `hasFunction`, while the
empty name never does; and the non-empty name of a declaration (names in the symbol
table being unique) satisfies `hasFunction`, is absent from `getFunctionNames` and
is rejected by `executeFunction`, which returns false with one diagnostic, no call
to `runFunction` and the return buffer unchanged. -/
theorem hasFunction_iff_symbol_table_contains (self : HotFix) (functionName : String) :
    (self.hasFunction functionName = true ↔
        ∃ module, self.module = some module ∧ functionName ≠ ""
          ∧ ∃ f ∈ module.functions, f.getName = functionName)
      ∧ (∀ name ∈ self.getFunctionNames, name ≠ "" → self.hasFunction name = true)
      ∧ self.hasFunction "" = false
      ∧ (∀ (module : Module) (f : Function), self.module = some module →
          (module.getValueSymbolTable.map (fun g => g.getName)).Nodup →
          f ∈ module.functions → f.getName ≠ "" → f.isDeclaration = true →
          self.hasFunction f.getName = true
            ∧ f.getName ∉ self.getFunctionNames
            ∧ ∀ (fp : FloatOps) (runFunction : RunFunction) (args : Nat → Option HostMem)
                (argTypes : Nat → TypeInfo) (numArgs : Nat) (returnType : Option TypeInfo)
                (returnValue : Option HostMem),
                ∃ d, HotFix.executeFunction fp runFunction self f.getName args argTypes numArgs
                    returnType returnValue = .ok ⟨false, returnValue, self, [d], []⟩) := by
  obtain ⟨module, interpreter, initialized⟩ := self
  have hiff : ∀ name : String,
      (HotFix.hasFunction ⟨module, interpreter, initialized⟩ name = true ↔
        ∃ m, module = some m ∧ name ≠ "" ∧ ∃ f ∈ m.functions, f.getName = name) := by
    intro name
    cases module with
    | none => simp [HotFix.hasFunction]
    | some m => simp [HotFix.hasFunction, getFunction_isSome_iff]
  refine ⟨hiff functionName, ?_, ?_, ?_⟩
  · intro name hname hne
    cases module with
    | none => simp [HotFix.getFunctionNames] at hname
    | some m =>
      simp only [HotFix.getFunctionNames, collectNames_eq, List.nil_append, List.mem_map,
        List.mem_filter] at hname
      obtain ⟨g, ⟨hg, _⟩, hn⟩ := hname
      exact (hiff name).2 ⟨m, rfl, hne, g, hg, hn⟩
  · cases h : HotFix.hasFunction ⟨module, interpreter, initialized⟩ "" with
    | false => rfl
    | true =>
      obtain ⟨m, _, hne, _⟩ := (hiff "").1 h
      exact absurd rfl hne
  · intro m f hm hnodup hf hne hdecl
    simp only at hm
    subst hm
    have hsym : ∀ g, g ∈ m.functions → g.getName = f.getName → g = f := by
      intro g hg hgn
      have hg' : g ∈ m.getValueSymbolTable := by
        simp only [Module.getValueSymbolTable, List.mem_filter, Function.hasName, bne_iff_ne,
          ne_eq]
        exact ⟨hg, fun h => hne (hgn.symm.trans h)⟩
      have hf' : f ∈ m.getValueSymbolTable := by
        simp only [Module.getValueSymbolTable, List.mem_filter, Function.hasName, bne_iff_ne,
          ne_eq]
        exact ⟨hf, hne⟩
      exact List.inj_on_of_nodup_map hnodup hg' hf' hgn
    have hhas : (m.getFunction f.getName).isSome = true :=
      (getFunction_isSome_iff m f.getName).2 ⟨hne, f, hf, rfl⟩
    obtain ⟨g, hg⟩ := Option.isSome_iff_exists.1 hhas
    obtain ⟨hgmem, hgname, _⟩ := getFunction_eq_some m f.getName g hg
    have hgf : g = f := hsym g hgmem hgname
    subst hgf
    refine ⟨?_, ?_, ?_⟩
    · simpa [HotFix.hasFunction] using hhas
    · intro hin
      simp only [HotFix.getFunctionNames, collectNames_eq, List.nil_append, List.mem_map,
        List.mem_filter, Bool.not_eq_true'] at hin
      obtain ⟨k, ⟨hk, hkdef⟩, hkname⟩ := hin
      have hkg : k = g := hsym k hk hkname
      rw [hkg, hdecl] at hkdef
      exact Bool.noConfusion hkdef
    · intro fp runFunction args argTypes numArgs returnType returnValue
      cases initialized with
      | false => exact ⟨Diag.NotInitialized, by cases interpreter <;> rfl⟩
      | true =>
        cases interpreter with
        | none => exact ⟨Diag.NotInitialized, rfl⟩
        | some i =>
          exact ⟨Diag.ExternalOnly g.getName, by
            simp only [HotFix.executeFunction, hg, hdecl, if_true]⟩

/-- C14 as amended, at the loaded example: `add` is declared only and `bugfix` has a
body. -/
theorem hasFunction_iff_symbol_table_contains_witness :
    exampleLoaded.hasFunction "add" = true
      ∧ exampleLoaded.hasFunction "bugfix" = true
      ∧ "add" ∉ exampleLoaded.getFunctionNames
      ∧ ∃ d, HotFix.executeFunction exampleFloatOps exampleRun exampleLoaded "add" exampleArgs
          (fun _ => ⟨TypeKind.INT32, 4, none⟩) 1 (some ⟨TypeKind.INT32, 4, none⟩) (some 77)
        = .ok ⟨false, some 77, exampleLoaded, [d], []⟩ := by
  have hmod : exampleLoaded.module = some ⟨"hotfix_ir", bugfixFunctions⟩ := by
    rw [exampleLoaded_eq]
  have h := (hasFunction_iff_symbol_table_contains exampleLoaded "add").2.2.2
    ⟨"hotfix_ir", bugfixFunctions⟩
    { getName := "add", isDeclaration := true,
      paramTypes := [IRType.IntegerTy 32, IRType.IntegerTy 32],
      returnType := IRType.IntegerTy 32 }
    hmod (by decide) (List.mem_cons_self _ _) (by decide) rfl
  refine ⟨h.1, ?_, h.2.1, ?_⟩
  · have hnames : exampleLoaded.getFunctionNames = ["bugfix"] := by
      rw [exampleLoaded_eq]; rfl
    exact (hasFunction_iff_symbol_table_contains exampleLoaded "add").2.1 "bugfix"
      (by rw [hnames]; exact List.mem_singleton_self _) (by decide)
  · exact h.2.2 exampleFloatOps exampleRun exampleArgs (fun _ => ⟨TypeKind.INT32, 4, none⟩) 1
      (some ⟨TypeKind.INT32, 4, none⟩) (some 77)

theorem unnamedLoaded_eq :
    unnamedLoaded = ⟨some ⟨"hotfix_ir", [unnamedFn]⟩,
      some ⟨⟨"hotfix_ir", [unnamedFn]⟩, true, []⟩, true⟩ := by
  simp [unnamedLoaded, HotFix.loadBitcodeFromString, HotFix.finishLoad, parseIR,
    unnamedFrontend, Interpreter.new, Interpreter.evaluateGlobals]

/-- C14 as stated fails on a program with an unnamed function that has a body
(`define void @0()`): the module holds it, `getFunctionNames` returns its name, the
empty string, but the symbol table does not hold unnamed functions, so
`hasFunction` of that returned name is false. -/
theorem unnamed_function_listed_but_not_found :
    (HotFix.loadBitcodeFromString unnamedFrontend HotFix.new unnamedCode).result = true
      ∧ unnamedLoaded.module = some ⟨"hotfix_ir", [unnamedFn]⟩
      ∧ unnamedFn.getName = "" ∧ unnamedFn.isDeclaration = false
      ∧ unnamedLoaded.getFunctionNames = [""]
      ∧ unnamedLoaded.hasFunction "" = false := by
  have hres : (HotFix.loadBitcodeFromString unnamedFrontend HotFix.new unnamedCode).result
      = true := by
    simp [HotFix.loadBitcodeFromString, HotFix.finishLoad, parseIR, unnamedFrontend]
  rw [unnamedLoaded_eq]
  exact ⟨hres, rfl, rfl, rfl, rfl, rfl⟩

end llvm_interpreter
